import Mathlib

/-!
# SweepingApp — verification of the upload/reconciliation pipeline

Shallow embedding of the order-ingestion pipeline of `src/backend/main.py`
(`process_upload_background`, `check_interface_status`,
`generate_orderlist_for_not_interfaced`, `verify_and_restore_orderlist`,
`validate_upload_request`, `upload_file_background`, `parse_filename`,
`MARKETPLACE_MAPPINGS`) together with theorems settling the frozen claims
about the natural-language specification.

Conventions:
* Python strings are `String`; nullable values (`None`) are `Option`.
* Datetimes are abstracted to `Nat` timestamps.
* Spreadsheet cells are `Option String` (`none` models a pandas `NaN`).
* Dictionaries are association lists (`List (String × _)`).
-/

namespace SweepingApp

/-! ## Data model: uploaded order records (`UploadedOrder`, main.py lines 393-413) -/

/-- One row of the `uploaded_orders` table.  Nullable `Text` columns whose
values may be Python `None` are `Option String`; `DateTime` is a `Nat`. -/
structure OrderRec where
  Marketplace : String
  Brand : String
  OrderNumber : String
  OrderStatus : String
  AWB : String
  Transporter : String
  OrderDate : Nat
  SLA : String
  Batch : String
  PIC : String
  UploadDate : Nat
  Remarks : String
  InterfaceStatus : String
  TaskId : String
  OrderNumberFlexo : Option String
  OrderStatusFlexo : Option String
  ItemId : Option String
  ItemIdFlexo : Option String
deriving Repr, DecidableEq

/-- The business keys (`OrderNumber` column) of a store of records. -/
def storeKeys (s : List OrderRec) : List String := s.map (·.OrderNumber)

/-! ## Normalizer output and upload environment -/

/-- A processed spreadsheet row after the vectorized extraction stage
(main.py lines 1097-1102): `orderNumber` is the `.str.strip()`-ped order
number, the scalar fields are the `fillna('')`-ed column values, `date`
the `processed_date`. -/
structure PRow where
  orderNumber : String
  status : String
  awb : String
  transporter : String
  date : Nat
  sla : String
  sku : String
deriving Repr, DecidableEq

/-- One canonical record per distinct order number, the output of the
`groupby('processed_order_number')` aggregation (main.py lines 1104-1118). -/
structure CanonRec where
  orderNumber : String
  status : String
  awb : String
  transporter : String
  date : Nat
  sla : String
  sku : Option String
deriving Repr, DecidableEq

/-- Embedding of `aggregate_skus` (main.py lines 1105-1108): keep the non-empty SKUs,
deduplicate preserving first occurrence, comma-join; `None` when empty. -/
def aggregateSkus (skus : List String) : Option String :=
  let valid := (skus.filter (fun s => s ≠ "")).eraseDups
  if valid = [] then none else some (String.intercalate "," valid)

/-- Deduplicate, keeping the first occurrence of each element: worker with
the already-emitted elements as accumulator. -/
def firstOccurAux : List String → List String → List String
  | [], _ => []
  | a :: as, seen =>
    if a ∈ seen then firstOccurAux as seen
    else a :: firstOccurAux as (a :: seen)

/-- Deduplicate a list keeping the first occurrence of each element. -/
def firstOccur (l : List String) : List String := firstOccurAux l []

/-- Keys of the groupby, in order of first occurrence. -/
def groupKeys (rows : List PRow) : List String :=
  firstOccur (rows.map (·.orderNumber))

/-- The rows of one group, in original order. -/
def groupOf (rows : List PRow) (k : String) : List PRow :=
  rows.filter (fun r => r.orderNumber = k)

/-- A default row, used only to totalize `List.headD`; every use is guarded
by a proof that the group is non-empty. -/
def defaultPRow : PRow :=
  { orderNumber := "", status := "", awb := "", transporter := "",
    date := 0, sla := "", sku := "" }

/-- The order normalizer/deduplicator (main.py lines 1104-1118): group the
processed rows by (already trimmed) order number; the `first` aggregate
takes each scalar field from the group's first row; SKUs are aggregated by
`aggregate_skus`. -/
def normalize (rows : List PRow) : List CanonRec :=
  (groupKeys rows).map (fun k =>
    let grp := groupOf rows k
    let fst := grp.headD defaultPRow
    { orderNumber := k
      status := fst.status
      awb := fst.awb
      transporter := fst.transporter
      date := fst.date
      sla := fst.sla
      sku := aggregateSkus (grp.map (·.sku)) })

/-! ## Interface reconciler (`check_interface_status`, main.py lines 2697-2745) -/

/-- A row of the external system for one order number, the data collected by
`check_external_database_status` (main.py lines 2534-2630).  All fields come
from a SQL row and are nullable. -/
structure ExtRow where
  system_id : Option String
  merchant_name : Option String
  system_ref_id : Option String
  order_status : Option String
  interface_status : String
  item_id_flexo : Option String
deriving Repr, DecidableEq

/-- The external order-fulfillment system as seen by one reconciliation run:
`none` models a failed connection (`get_database_connection` returned no
connection, so `check_external_database_status` returns `{}`); otherwise a
lookup from order number to the joined external row. -/
def ExternalDb := Option (List (String × ExtRow))

/-- An entry of the dictionary returned by `check_interface_status`.  The
two shapes match the two branches at main.py lines 2712-2737: `found`
carries the external data (the `order_status` key is present, its value
nullable), `notFound` is the default entry built for an order number absent
from the external results (it has no `order_status` key at all). -/
inductive IEntry where
  | found (interface_status : String) (system_ref_id : Option String)
      (order_status : Option String) (item_id_flexo : Option String)
  | notFound
deriving Repr, DecidableEq

/-- Reading `entry.get('status') or entry.get('interface_status')`: the `status`
key is present in both shapes. -/
def IEntry.statusValue : IEntry → String
  | .found s _ _ _ => s
  | .notFound => "Not Yet Interface"

/-- Reading `entry.get('system_ref_id', '')`: the key is present in both shapes,
with a nullable value (`None` in the `notFound` shape). -/
def IEntry.systemRefId : IEntry → Option String
  | .found _ r _ _ => r
  | .notFound => none

/-- Reading `entry.get('order_status', '')`: the key is present (nullable) in the
`found` shape and absent in the `notFound` shape, where the `''` default
applies. -/
def IEntry.orderStatusDefault : IEntry → Option String
  | .found _ _ os _ => os
  | .notFound => some ""

/-- Reading `entry.get('item_id_flexo')`: present in both shapes, nullable. -/
def IEntry.itemIdFlexo : IEntry → Option String
  | .found _ _ _ it => it
  | .notFound => none

/-- Embedding of `check_interface_status` (main.py lines
2697-2741): query the external database (empty result on connection
failure) and build one entry per requested order number — external data
when found, the `notFound` default otherwise. -/
def checkInterfaceStatus (orderNumbers : List String) (ext : ExternalDb) :
    List (String × IEntry) :=
  let externalResults : List (String × ExtRow) := match ext with
    | none => []
    | some table => table
  orderNumbers.map (fun oid =>
    match externalResults.lookup oid with
    | some row =>
        (oid, IEntry.found row.interface_status row.system_ref_id
          row.order_status row.item_id_flexo)
    | none => (oid, IEntry.notFound))

/-! ## Upload environment and interface-status assignment
(main.py lines 1121-1139 and 1254-1284) -/

/-- The per-upload context: filename-derived metadata, the submitting user,
the upload timestamp, the task id, and the merged reconciliation results
(`interface_results`). -/
structure Env where
  marketplace : String
  brand : String
  batch : String
  pic : String
  uploadDate : Nat
  taskId : String
  interfaceResults : List (String × IEntry)
deriving Repr

/-- Build the `order_data` record for one canonical order (main.py lines
1121-1139) and assign its interface fields (lines 1254-1276): an order
number present in `interface_results` takes the entry's data, one absent
from it takes the degraded defaults. -/
def mkOrderRec (env : Env) (c : CanonRec) : OrderRec :=
  let base : OrderRec :=
    { Marketplace := env.marketplace
      Brand := env.brand
      OrderNumber := c.orderNumber
      OrderStatus := c.status
      AWB := c.awb
      Transporter := c.transporter
      OrderDate := c.date
      SLA := c.sla
      Batch := env.batch
      PIC := env.pic
      UploadDate := env.uploadDate
      Remarks := ""
      InterfaceStatus := ""
      TaskId := env.taskId
      OrderNumberFlexo := none
      OrderStatusFlexo := none
      ItemId := c.sku
      ItemIdFlexo := none }
  match env.interfaceResults.lookup c.orderNumber with
  | some entry =>
      { base with
        InterfaceStatus :=
          if entry.statusValue = "Interface" then "Interface"
          else "Not Yet Interface"
        OrderNumberFlexo := entry.systemRefId
        OrderStatusFlexo := entry.orderStatusDefault
        ItemIdFlexo := entry.itemIdFlexo }
  | none =>
      { base with
        InterfaceStatus := "Not Yet Interface"
        OrderNumberFlexo := some ""
        OrderStatusFlexo := some ""
        ItemIdFlexo := none }

/-! ## Upsert engine (main.py lines 1240-1338) -/

/-- One update of an existing stored row from fresh upload data (main.py
lines 1317-1334).  Every mutable field is overwritten; `OrderNumber` (and
the row identity) is never assigned.  `OrderNumberFlexo` and
`OrderStatusFlexo` go through Python's `x or ''`, collapsing `None` (and
`''`) to `''`. -/
def applyUpdate (existing incoming : OrderRec) : OrderRec :=
  { existing with
    Marketplace := incoming.Marketplace
    Brand := incoming.Brand
    OrderStatus := incoming.OrderStatus
    AWB := incoming.AWB
    Transporter := incoming.Transporter
    OrderDate := incoming.OrderDate
    SLA := incoming.SLA
    Batch := incoming.Batch
    PIC := incoming.PIC
    UploadDate := incoming.UploadDate
    InterfaceStatus := incoming.InterfaceStatus
    TaskId := incoming.TaskId
    Remarks := incoming.Remarks
    OrderNumberFlexo := some (incoming.OrderNumberFlexo.getD "")
    OrderStatusFlexo := some (incoming.OrderStatusFlexo.getD "")
    ItemId := incoming.ItemId
    ItemIdFlexo := incoming.ItemIdFlexo }

/-- Result of one upsert run: the new store plus the `new_count` and
`replaced_count` counters. -/
structure UpsertResult where
  store : List OrderRec
  newCount : Nat
  replacedCount : Nat
deriving Repr, DecidableEq

/-- The upsert engine (main.py lines 1240-1338): partition the incoming
records by whether their order number is already stored
(`existing_orders_dict`), bulk-insert the fresh ones and overwrite the
stored ones in place. -/
def upsertOrders (store incoming : List OrderRec) : UpsertResult :=
  let existingKeys := storeKeys store
  let toInsert := incoming.filter (fun r => r.OrderNumber ∉ existingKeys)
  let toUpdate := incoming.filter (fun r => r.OrderNumber ∈ existingKeys)
  let updated := store.map (fun ex =>
    match incoming.find? (fun r => r.OrderNumber = ex.OrderNumber) with
    | some nw => applyUpdate ex nw
    | none => ex)
  { store := updated ++ toInsert
    newCount := toInsert.length
    replacedCount := toUpdate.length }

/-- One complete ingestion step at the store level: normalize the processed
rows, assign interface results, upsert into the store. -/
def ingest (store : List OrderRec) (rows : List PRow) (env : Env) : UpsertResult :=
  upsertOrders store ((normalize rows).map (mkOrderRec env))

/-- A sequence of uploads, each run to completion against the store left by
the previous one. -/
def ingestSeq (store : List OrderRec) (uploads : List (List PRow × Env)) :
    List OrderRec :=
  uploads.foldl (fun s u => (ingest s u.1 u.2).store) store

/-! ## Basic lemmas about the embedding -/

theorem mem_firstOccurAux {a : String} : ∀ (l seen : List String),
    a ∈ firstOccurAux l seen ↔ a ∈ l ∧ a ∉ seen := by
  intro l
  induction l with
  | nil => intro seen; simp [firstOccurAux]
  | cons x xs ih =>
    intro seen
    simp only [firstOccurAux]
    by_cases hx : x ∈ seen
    · rw [if_pos hx, ih]
      constructor
      · exact fun h => ⟨List.mem_cons_of_mem x h.1, h.2⟩
      · rintro ⟨h1, h2⟩
        rcases List.mem_cons.mp h1 with rfl | hmem
        · exact absurd hx h2
        · exact ⟨hmem, h2⟩
    · rw [if_neg hx]
      simp only [List.mem_cons, ih, List.mem_cons]
      constructor
      · rintro (rfl | ⟨h1, h2⟩)
        · exact ⟨Or.inl rfl, hx⟩
        · exact ⟨Or.inr h1, fun hs => h2 (Or.inr hs)⟩
      · rintro ⟨rfl | h1, h2⟩
        · exact Or.inl rfl
        · by_cases hax : a = x
          · exact Or.inl hax
          · exact Or.inr ⟨h1, fun hs => (by
              rcases hs with h | h
              exacts [hax h, h2 h])⟩

theorem nodup_firstOccurAux : ∀ (l seen : List String),
    (firstOccurAux l seen).Nodup ∧ ∀ a ∈ firstOccurAux l seen, a ∉ seen := by
  intro l
  induction l with
  | nil => intro seen; simp [firstOccurAux]
  | cons x xs ih =>
    intro seen
    simp only [firstOccurAux]
    by_cases hx : x ∈ seen
    · rw [if_pos hx]; exact ih seen
    · rw [if_neg hx]
      obtain ⟨hnd, hout⟩ := ih (x :: seen)
      refine ⟨List.Nodup.cons (fun hmem => ?_) hnd, ?_⟩
      · exact hout x hmem (List.mem_cons_self x seen)
      · intro a ha
        rcases List.mem_cons.mp ha with rfl | hmem
        · exact hx
        · exact fun hs => hout a hmem (List.mem_cons_of_mem x hs)

theorem mem_firstOccur {a : String} {l : List String} :
    a ∈ firstOccur l ↔ a ∈ l := by
  simp [firstOccur, mem_firstOccurAux]

theorem nodup_firstOccur (l : List String) : (firstOccur l).Nodup :=
  (nodup_firstOccurAux l []).1

theorem length_firstOccur (l : List String) :
    (firstOccur l).length = l.toFinset.card := by
  have h : (firstOccur l).toFinset = l.toFinset :=
    Finset.ext fun a => by simp [List.mem_toFinset, mem_firstOccur]
  rw [← h, List.toFinset_card_of_nodup (nodup_firstOccur l)]

theorem mkOrderRec_orderNumber (env : Env) (c : CanonRec) :
    (mkOrderRec env c).OrderNumber = c.orderNumber := by
  simp only [mkOrderRec]
  split <;> rfl

theorem applyUpdate_orderNumber (ex nw : OrderRec) :
    (applyUpdate ex nw).OrderNumber = ex.OrderNumber := rfl

theorem normalize_keys (rows : List PRow) :
    (normalize rows).map (·.orderNumber) = groupKeys rows := by
  simp only [normalize, List.map_map]
  conv_rhs => rw [← List.map_id (groupKeys rows)]
  exact List.map_congr_left (fun k _ => rfl)

theorem normalize_keys_nodup (rows : List PRow) :
    ((normalize rows).map (·.orderNumber)).Nodup := by
  rw [normalize_keys]; exact nodup_firstOccur _

/-- The keys of the updated portion of the store are exactly the old keys:
the update path never rewrites `OrderNumber`. -/
theorem upsert_storeKeys (s inc : List OrderRec) :
    storeKeys (upsertOrders s inc).store =
      storeKeys s ++ storeKeys (inc.filter (fun r => r.OrderNumber ∉ storeKeys s)) := by
  simp only [upsertOrders, storeKeys, List.map_append]
  congr 1
  rw [List.map_map]
  refine List.map_congr_left (fun ex _ => ?_)
  simp only [Function.comp_apply]
  split
  · rename_i nw _; exact applyUpdate_orderNumber ex nw
  · rfl

theorem upsert_keys_nodup (s inc : List OrderRec)
    (hs : (storeKeys s).Nodup) (hinc : (storeKeys inc).Nodup) :
    (storeKeys (upsertOrders s inc).store).Nodup := by
  rw [upsert_storeKeys]
  refine List.Nodup.append hs ?_ ?_
  · simp only [storeKeys]
    exact List.Nodup.sublist ((List.filter_sublist inc).map (·.OrderNumber)) hinc
  · intro k hk1 hk2
    simp only [storeKeys, List.mem_map] at hk1 hk2
    obtain ⟨r, hr, hrk⟩ := hk2
    rw [List.mem_filter] at hr
    have h2 := hr.2
    simp only [decide_eq_true_eq, storeKeys, List.mem_map] at h2
    rw [hrk] at h2
    exact h2 hk1

theorem ingest_keys_nodup (s : List OrderRec) (rows : List PRow) (env : Env)
    (hs : (storeKeys s).Nodup) :
    (storeKeys (ingest s rows env).store).Nodup := by
  refine upsert_keys_nodup _ _ hs ?_
  simp only [storeKeys, List.map_map]
  have h : List.map ((fun x => x.OrderNumber) ∘ mkOrderRec env) (normalize rows) =
      (normalize rows).map (·.orderNumber) :=
    List.map_congr_left (fun c _ => mkOrderRec_orderNumber env c)
  rw [h]
  exact normalize_keys_nodup rows

/-! ## Lemmas for re-ingestion (C2) -/

/-- The normalization the update path applies to the two foreign text
fields: Python's `x or ''` collapses `None` to `''`. -/
def normFlexo (r : OrderRec) : OrderRec :=
  { r with
    OrderNumberFlexo := some (r.OrderNumberFlexo.getD "")
    OrderStatusFlexo := some (r.OrderStatusFlexo.getD "") }

theorem normFlexo_orderNumber (r : OrderRec) :
    (normFlexo r).OrderNumber = r.OrderNumber := rfl

theorem applyUpdate_self (r : OrderRec) : applyUpdate r r = normFlexo r := rfl

theorem applyUpdate_normFlexo (r : OrderRec) :
    applyUpdate (normFlexo r) r = normFlexo r := rfl

theorem incoming_keys_nodup (rows : List PRow) (env : Env) :
    (storeKeys ((normalize rows).map (mkOrderRec env))).Nodup := by
  simp only [storeKeys, List.map_map]
  have h : List.map ((fun x => x.OrderNumber) ∘ mkOrderRec env) (normalize rows) =
      (normalize rows).map (·.orderNumber) :=
    List.map_congr_left (fun c _ => mkOrderRec_orderNumber env c)
  rw [h]
  exact normalize_keys_nodup rows

theorem find_key_self {inc : List OrderRec} (hnd : (storeKeys inc).Nodup)
    {e : OrderRec} (he : e ∈ inc) :
    inc.find? (fun r => r.OrderNumber = e.OrderNumber) = some e := by
  cases hfind : inc.find? (fun r => r.OrderNumber = e.OrderNumber) with
  | none =>
    exfalso
    have hnone := List.find?_eq_none.mp hfind e he
    simp at hnone
  | some nw =>
    have hmem := List.mem_of_find?_eq_some hfind
    have hp := List.find?_some hfind
    simp only [decide_eq_true_eq] at hp
    have heq : nw = e := List.inj_on_of_nodup_map hnd hmem he hp
    rw [heq]

/-- Upserting records none of whose keys are stored yet: everything goes to
the insert set, nothing is replaced, the store grows by the whole batch. -/
theorem upsert_all_fresh (s₀ inc : List OrderRec)
    (hdisj : ∀ r ∈ inc, r.OrderNumber ∉ storeKeys s₀) :
    upsertOrders s₀ inc =
      { store := s₀ ++ inc, newCount := inc.length, replacedCount := 0 } := by
  simp only [upsertOrders]
  have hins : inc.filter (fun r => r.OrderNumber ∉ storeKeys s₀) = inc :=
    List.filter_eq_self.mpr (fun r hr => by
      simp only [decide_eq_true_eq]; exact hdisj r hr)
  have hupd : inc.filter (fun r => r.OrderNumber ∈ storeKeys s₀) = [] :=
    List.filter_eq_nil_iff.mpr (fun r hr => by
      simp only [decide_eq_true_eq]; exact hdisj r hr)
  have hmap : s₀.map (fun ex =>
      match inc.find? (fun r => r.OrderNumber = ex.OrderNumber) with
      | some nw => applyUpdate ex nw
      | none => ex) = s₀ := by
    conv_rhs => rw [← List.map_id s₀]
    refine List.map_congr_left (fun ex hex => ?_)
    have hnone : inc.find? (fun r => r.OrderNumber = ex.OrderNumber) = none := by
      rw [List.find?_eq_none]
      intro r hr
      simp only [decide_eq_true_eq]
      intro hkey
      exact hdisj r hr (hkey ▸ List.mem_map_of_mem (·.OrderNumber) hex)
    rw [hnone]
    rfl
  rw [hins, hupd, hmap]
  rfl

/-- Upserting a batch into a store that already holds an image of that
batch (under any key-preserving map `g` absorbed by `applyUpdate`): every
record goes to the update set, nothing is inserted, and the batch part of
the store becomes `normFlexo` of the batch. -/
theorem upsert_into_mapped (s₀ inc : List OrderRec) (g : OrderRec → OrderRec)
    (hkey : ∀ r, (g r).OrderNumber = r.OrderNumber)
    (hupd : ∀ r, applyUpdate (g r) r = normFlexo r)
    (hdisj : ∀ r ∈ inc, r.OrderNumber ∉ storeKeys s₀)
    (hnd : (storeKeys inc).Nodup) :
    upsertOrders (s₀ ++ inc.map g) inc =
      { store := s₀ ++ inc.map normFlexo, newCount := 0,
        replacedCount := inc.length } := by
  have hkeys : storeKeys (s₀ ++ inc.map g) = storeKeys s₀ ++ storeKeys inc := by
    simp only [storeKeys, List.map_append, List.map_map]
    congr 1
    exact List.map_congr_left (fun r _ => hkey r)
  have hmemkeys : ∀ r ∈ inc, r.OrderNumber ∈ storeKeys (s₀ ++ inc.map g) := by
    intro r hr
    rw [hkeys]
    exact List.mem_append_right _ (List.mem_map_of_mem (·.OrderNumber) hr)
  simp only [upsertOrders]
  have hins : inc.filter
      (fun r => r.OrderNumber ∉ storeKeys (s₀ ++ inc.map g)) = [] :=
    List.filter_eq_nil_iff.mpr (fun r hr => by
      simp only [decide_not, Bool.not_eq_true', decide_eq_false_iff_not,
        Decidable.not_not]
      exact hmemkeys r hr)
  have hupd' : inc.filter
      (fun r => r.OrderNumber ∈ storeKeys (s₀ ++ inc.map g)) = inc :=
    List.filter_eq_self.mpr (fun r hr => by
      simp only [decide_eq_true_eq]; exact hmemkeys r hr)
  have hmap : (s₀ ++ inc.map g).map (fun ex =>
      match inc.find? (fun r => r.OrderNumber = ex.OrderNumber) with
      | some nw => applyUpdate ex nw
      | none => ex) = s₀ ++ inc.map normFlexo := by
    rw [List.map_append]
    congr 1
    · conv_rhs => rw [← List.map_id s₀]
      refine List.map_congr_left (fun ex hex => ?_)
      have hnone : inc.find? (fun r => r.OrderNumber = ex.OrderNumber) = none := by
        rw [List.find?_eq_none]
        intro r hr
        simp only [decide_eq_true_eq]
        intro hkeyeq
        exact hdisj r hr (hkeyeq ▸ List.mem_map_of_mem (·.OrderNumber) hex)
      rw [hnone]
      rfl
    · rw [List.map_map]
      refine List.map_congr_left (fun e he => ?_)
      simp only [Function.comp_apply]
      have hfind : inc.find? (fun r => r.OrderNumber = (g e).OrderNumber) = some e := by
        rw [hkey e]
        exact find_key_self hnd he
      rw [hfind]
      exact hupd e
  rw [hins, hupd', hmap]
  simp

/-! ## Sample concrete data for witnesses -/

/-- A sample processed spreadsheet row. -/
def samplePRow : PRow :=
  { orderNumber := "S-100", status := "shipped", awb := "AWB1",
    transporter := "JNE", date := 5, sla := "", sku := "SKU-A" }

/-- A sample upload environment with no reconciliation matches. -/
def sampleEnv : Env :=
  { marketplace := "shopee", brand := "AURA", batch := "1", pic := "user",
    uploadDate := 10, taskId := "t1", interfaceResults := [] }

/-- An environment whose reconciliation ran but found no order: the
interface-results dictionary holds the `notFound` default entry for
`"S-100"` (external connection failed, `check_interface_status` still
builds an entry per order). -/
def envNotFound : Env :=
  { sampleEnv with interfaceResults := checkInterfaceStatus ["S-100"] none }

/-! ## C1 — at most one live record per order number -/

/-- C1: over any sequence of uploads starting from a store whose order
numbers are distinct, the store keeps at most one live record per order
number (its key list stays duplicate-free), and each single upload
overwrites rather than inserts for already-stored order numbers: the keys
of the stored records are preserved exactly (the update path never changes
the business key), with only fresh keys appended. -/
theorem upload_unique_order_invariant
    (s₀ : List OrderRec) (uploads : List (List PRow × Env))
    (h₀ : (storeKeys s₀).Nodup) :
    (storeKeys (ingestSeq s₀ uploads)).Nodup ∧
    (∀ (s : List OrderRec) (rows : List PRow) (env : Env),
      ∃ fresh, storeKeys (ingest s rows env).store = storeKeys s ++ fresh ∧
        ∀ k ∈ fresh, k ∉ storeKeys s) := by
  constructor
  · induction uploads generalizing s₀ with
    | nil => simpa [ingestSeq] using h₀
    | cons u us ih =>
      have hstep := ingest_keys_nodup s₀ u.1 u.2 h₀
      simpa [ingestSeq] using ih _ hstep
  · intro s rows env
    refine ⟨_, upsert_storeKeys s _, ?_⟩
    intro k hk hks
    simp only [storeKeys, List.mem_map] at hks
    simp only [storeKeys, List.mem_map] at hk
    obtain ⟨r, hr, hrk⟩ := hk
    rw [List.mem_filter] at hr
    have h2 := hr.2
    simp only [decide_eq_true_eq, storeKeys, List.mem_map] at h2
    rw [hrk] at h2
    exact h2 hks

/-- Witness for C1 at a concrete input: the empty store and one concrete
upload. -/
theorem upload_unique_order_invariant_witness :
    (storeKeys ([] : List OrderRec)).Nodup ∧
    ((storeKeys (ingestSeq [] [([samplePRow], sampleEnv)])).Nodup ∧
      (∀ (s : List OrderRec) (rows : List PRow) (env : Env),
        ∃ fresh, storeKeys (ingest s rows env).store = storeKeys s ++ fresh ∧
          ∀ k ∈ fresh, k ∉ storeKeys s)) :=
  ⟨List.nodup_nil,
    upload_unique_order_invariant [] [([samplePRow], sampleEnv)] List.nodup_nil⟩

/-! ## C2 — re-ingestion of an identical spreadsheet -/

/-- C2 counterexample: re-ingesting the identical one-order spreadsheet
(same rows, same environment, order not found externally) reports
`new == 1` on run 1 and `replaced == 1` on run 2, yet the stored state
after run 2 differs from the state after run 1: the update path rewrites
the inserted `NULL` foreign order number to the empty string
(`new_data.get('OrderNumberFlexo') or ''`). -/
theorem reingest_state_not_equal :
    (ingest [] [samplePRow] envNotFound).newCount = 1 ∧
    (ingest (ingest [] [samplePRow] envNotFound).store
      [samplePRow] envNotFound).replacedCount = 1 ∧
    ¬((ingest (ingest [] [samplePRow] envNotFound).store
        [samplePRow] envNotFound).store =
      (ingest [] [samplePRow] envNotFound).store) := by decide

/-- C2 (amended): re-ingesting an identical spreadsheet whose N distinct
order numbers are not yet stored reports `new == N` on run 1 and
`replaced == N` on run 2 (with `N` the number of distinct processed order
numbers), and the run-2 state equals the run-1 state except that the
update path collapses `NULL` foreign order number/status to the empty
string (`normFlexo`); a third identical run leaves the state fixed. -/
theorem reingest_idempotent_up_to_flexo
    (s₀ : List OrderRec) (rows : List PRow) (env : Env)
    (hdisj : ∀ r ∈ (normalize rows).map (mkOrderRec env),
      r.OrderNumber ∉ storeKeys s₀) :
    (normalize rows).length = (rows.map (·.orderNumber)).toFinset.card ∧
    ingest s₀ rows env =
      { store := s₀ ++ (normalize rows).map (mkOrderRec env)
        newCount := (normalize rows).length
        replacedCount := 0 } ∧
    ingest (ingest s₀ rows env).store rows env =
      { store := s₀ ++ ((normalize rows).map (mkOrderRec env)).map normFlexo
        newCount := 0
        replacedCount := (normalize rows).length } ∧
    ingest (ingest (ingest s₀ rows env).store rows env).store rows env =
      ingest (ingest s₀ rows env).store rows env := by
  have hN : (normalize rows).length = (rows.map (·.orderNumber)).toFinset.card := by
    have h1 : (normalize rows).length = (groupKeys rows).length := by
      rw [← normalize_keys rows, List.length_map]
    rw [h1, groupKeys, length_firstOccur]
  have hnd := incoming_keys_nodup rows env
  have hlen : ((normalize rows).map (mkOrderRec env)).length =
      (normalize rows).length := List.length_map _ _
  have h1 : ingest s₀ rows env =
      { store := s₀ ++ (normalize rows).map (mkOrderRec env)
        newCount := (normalize rows).length
        replacedCount := 0 } := by
    rw [ingest, upsert_all_fresh s₀ _ hdisj, hlen]
  have h2 : ingest (ingest s₀ rows env).store rows env =
      { store := s₀ ++ ((normalize rows).map (mkOrderRec env)).map normFlexo
        newCount := 0
        replacedCount := (normalize rows).length } := by
    rw [h1]
    show upsertOrders (s₀ ++ (normalize rows).map (mkOrderRec env)) _ = _
    have hmapped := upsert_into_mapped s₀ ((normalize rows).map (mkOrderRec env))
      id (fun _ => rfl) applyUpdate_self hdisj hnd
    rw [List.map_id] at hmapped
    rw [hmapped, hlen]
  have h3 : ingest (ingest (ingest s₀ rows env).store rows env).store rows env =
      ingest (ingest s₀ rows env).store rows env := by
    rw [h2]
    show upsertOrders (s₀ ++ ((normalize rows).map (mkOrderRec env)).map normFlexo) _ = _
    have hmapped := upsert_into_mapped s₀ ((normalize rows).map (mkOrderRec env))
      normFlexo normFlexo_orderNumber applyUpdate_normFlexo hdisj hnd
    rw [hmapped, hlen]
  exact ⟨hN, h1, h2, h3⟩

/-- Witness for C2 (amended) at a concrete input: empty store, one-row
spreadsheet, reconciliation entry `notFound`. -/
theorem reingest_idempotent_up_to_flexo_witness :
    (∀ r ∈ (normalize [samplePRow]).map (mkOrderRec envNotFound),
      r.OrderNumber ∉ storeKeys []) ∧
    ((normalize [samplePRow]).length =
        ([samplePRow].map (·.orderNumber)).toFinset.card ∧
      ingest [] [samplePRow] envNotFound =
        { store := [] ++ (normalize [samplePRow]).map (mkOrderRec envNotFound)
          newCount := (normalize [samplePRow]).length
          replacedCount := 0 } ∧
      ingest (ingest [] [samplePRow] envNotFound).store [samplePRow] envNotFound =
        { store := [] ++
            ((normalize [samplePRow]).map (mkOrderRec envNotFound)).map normFlexo
          newCount := 0
          replacedCount := (normalize [samplePRow]).length } ∧
      ingest (ingest (ingest [] [samplePRow] envNotFound).store
          [samplePRow] envNotFound).store [samplePRow] envNotFound =
        ingest (ingest [] [samplePRow] envNotFound).store [samplePRow] envNotFound) :=
  ⟨by decide, reingest_idempotent_up_to_flexo [] [samplePRow] envNotFound (by decide)⟩

/-! ## C5 — normalization yields one canonical record per distinct order
number, first row wins for scalars, SKUs aggregated -/

theorem filter_head_first (p : PRow → Bool) :
    ∀ (rows : List PRow), rows.filter p ≠ [] →
      ∃ pre r post, rows = pre ++ r :: post ∧
        (∀ x ∈ pre, p x = false) ∧ p r = true ∧
        (rows.filter p).headD defaultPRow = r := by
  intro rows
  induction rows with
  | nil => intro h; simp at h
  | cons x xs ih =>
    intro hne
    by_cases hx : p x = true
    · exact ⟨[], x, xs, by simp, by simp, hx, by simp [List.filter_cons, hx]⟩
    · have hx' : p x = false := Bool.eq_false_iff.mpr hx
      have hfe : (x :: xs).filter p = xs.filter p := by
        simp [List.filter_cons, hx']
      rw [hfe] at hne
      obtain ⟨pre, r, post, hsplit, hpre, hr, hhead⟩ := ih hne
      refine ⟨x :: pre, r, post, by simp [hsplit], ?_, hr, by rw [hfe]; exact hhead⟩
      intro y hy
      rcases List.mem_cons.mp hy with rfl | hy'
      · exact hx'
      · exact hpre y hy'

/-- C5: normalization yields exactly one canonical record per distinct
processed order number (`N` records for `N` distinct keys); each record
takes its scalar fields (status, AWB/tracking, carrier, date, SLA) from
the first-occurring row with its order number; its item identifiers are
the group's SKUs deduplicated and comma-joined (`aggregate_skus`); and
every row's order number is represented by some canonical record. -/
theorem normalize_canonical_shape (rows : List PRow) :
    (normalize rows).length = (rows.map (·.orderNumber)).toFinset.card ∧
    (∀ r ∈ rows, ∃ c ∈ normalize rows, c.orderNumber = r.orderNumber) ∧
    (∀ c ∈ normalize rows,
      ∃ pre r post, rows = pre ++ r :: post ∧
        (∀ x ∈ pre, x.orderNumber ≠ c.orderNumber) ∧
        r.orderNumber = c.orderNumber ∧
        c.status = r.status ∧ c.awb = r.awb ∧ c.transporter = r.transporter ∧
        c.date = r.date ∧ c.sla = r.sla ∧
        c.sku = aggregateSkus
          ((rows.filter (fun x => x.orderNumber = c.orderNumber)).map (·.sku))) := by
  refine ⟨?_, ?_, ?_⟩
  · have h1 : (normalize rows).length = (groupKeys rows).length := by
      rw [← normalize_keys rows, List.length_map]
    rw [h1, groupKeys, length_firstOccur]
  · intro r hr
    have hk : r.orderNumber ∈ groupKeys rows := by
      rw [groupKeys, mem_firstOccur]
      exact List.mem_map_of_mem (·.orderNumber) hr
    have : ∃ c ∈ normalize rows, c.orderNumber = r.orderNumber := by
      have := List.mem_map_of_mem (fun k =>
        let grp := groupOf rows k
        let fst := grp.headD defaultPRow
        ({ orderNumber := k
           status := fst.status
           awb := fst.awb
           transporter := fst.transporter
           date := fst.date
           sla := fst.sla
           sku := aggregateSkus (grp.map (·.sku)) } : CanonRec)) hk
      exact ⟨_, this, rfl⟩
    exact this
  · intro c hc
    simp only [normalize, List.mem_map] at hc
    obtain ⟨k, hk, hck⟩ := hc
    have hkc : c.orderNumber = k := by rw [← hck]
    have hkmem : k ∈ rows.map (·.orderNumber) := by
      rw [groupKeys, mem_firstOccur] at hk
      exact hk
    have hne : rows.filter (fun r => r.orderNumber = k) ≠ [] := by
      simp only [List.mem_map] at hkmem
      obtain ⟨r, hr, hrk⟩ := hkmem
      intro hempty
      have : r ∈ rows.filter (fun r => r.orderNumber = k) :=
        List.mem_filter.mpr ⟨hr, by simp [hrk]⟩
      rw [hempty] at this
      exact absurd this (List.not_mem_nil r)
    obtain ⟨pre, r, post, hsplit, hpre, hr, hhead⟩ :=
      filter_head_first (fun r => r.orderNumber = k) rows hne
    simp only [decide_eq_true_eq] at hr
    refine ⟨pre, r, post, hsplit, ?_, by rw [hr, hkc], ?_, ?_, ?_, ?_, ?_, ?_⟩
    · intro x hx
      have := hpre x hx
      simp only [decide_eq_false_iff_not] at this
      rw [hkc]
      exact this
    all_goals rw [← hck]
    · show ((groupOf rows k).headD defaultPRow).status = r.status
      rw [show groupOf rows k = rows.filter (fun r => r.orderNumber = k) from rfl,
        hhead]
    · show ((groupOf rows k).headD defaultPRow).awb = r.awb
      rw [show groupOf rows k = rows.filter (fun r => r.orderNumber = k) from rfl,
        hhead]
    · show ((groupOf rows k).headD defaultPRow).transporter = r.transporter
      rw [show groupOf rows k = rows.filter (fun r => r.orderNumber = k) from rfl,
        hhead]
    · show ((groupOf rows k).headD defaultPRow).date = r.date
      rw [show groupOf rows k = rows.filter (fun r => r.orderNumber = k) from rfl,
        hhead]
    · show ((groupOf rows k).headD defaultPRow).sla = r.sla
      rw [show groupOf rows k = rows.filter (fun r => r.orderNumber = k) from rfl,
        hhead]
    · rfl

/-- Witness for C5 at a concrete spreadsheet: two rows for `S-100` with
different SKUs and one row for `S-101` yield two canonical records. -/
theorem normalize_canonical_shape_witness :
    (normalize [samplePRow, { samplePRow with sku := "SKU-B" },
        { samplePRow with orderNumber := "S-101" }]).length =
      (([samplePRow, { samplePRow with sku := "SKU-B" },
        { samplePRow with orderNumber := "S-101" }].map
          (·.orderNumber)).toFinset).card ∧
    (∀ r ∈ [samplePRow, { samplePRow with sku := "SKU-B" },
        { samplePRow with orderNumber := "S-101" }],
      ∃ c ∈ normalize [samplePRow, { samplePRow with sku := "SKU-B" },
        { samplePRow with orderNumber := "S-101" }],
        c.orderNumber = r.orderNumber) ∧
    (∀ c ∈ normalize [samplePRow, { samplePRow with sku := "SKU-B" },
        { samplePRow with orderNumber := "S-101" }],
      ∃ pre r post,
        [samplePRow, { samplePRow with sku := "SKU-B" },
          { samplePRow with orderNumber := "S-101" }] = pre ++ r :: post ∧
        (∀ x ∈ pre, x.orderNumber ≠ c.orderNumber) ∧
        r.orderNumber = c.orderNumber ∧
        c.status = r.status ∧ c.awb = r.awb ∧ c.transporter = r.transporter ∧
        c.date = r.date ∧ c.sla = r.sla ∧
        c.sku = aggregateSkus
          (([samplePRow, { samplePRow with sku := "SKU-B" },
              { samplePRow with orderNumber := "S-101" }].filter
            (fun x => x.orderNumber = c.orderNumber)).map (·.sku))) :=
  normalize_canonical_shape
    [samplePRow, { samplePRow with sku := "SKU-B" },
      { samplePRow with orderNumber := "S-101" }]

/-! ## Filename parsing (`parse_filename`, main.py lines 1629-1699) -/

/-- The fields extracted from an upload filename. -/
structure FilenameInfo where
  brand : String
  sales_channel : String
  date : String
  batch : String
  extension : String
deriving Repr, DecidableEq

/-- Result of `parse_filename`: a parse (`ok`), an `HTTPException` raised by
one of its validations (`invalid msg`), or no pattern match (`None`). -/
inductive ParseResult where
  | ok (info : FilenameInfo)
  | invalid (msg : String)
  | noMatch
deriving Repr, DecidableEq

/-- Python `str.endswith`, on character lists (kernel-computable). -/
def strEndsWith (s suffix : String) : Bool :=
  suffix.toList.isSuffixOf s.toList

/-- Python `str.lower`, on character lists (kernel-computable). -/
def lowerStr (s : String) : String :=
  String.mk (s.toList.map (fun c =>
    if 'A' ≤ c ∧ c ≤ 'Z' then Char.ofNat (c.toNat + 32) else c))

/-- Python `str.strip`, on character lists (kernel-computable). -/
def trimStr (s : String) : String :=
  String.mk
    (((s.toList.dropWhile Char.isWhitespace).reverse.dropWhile
      Char.isWhitespace).reverse)

/-- Python `int` on a digit string, on character lists
(kernel-computable). -/
def digitsToNat (s : String) : Nat :=
  s.toList.foldl (fun n c => n * 10 + (c.toNat - '0'.toNat)) 0

/-- Maximal run of characters satisfying `p` (regex maximal munch for a
character class followed by a disjoint delimiter). -/
def takeRun (p : Char → Bool) : List Char → List Char × List Char
  | [] => ([], [])
  | c :: cs =>
    if p c then
      let (a, b) := takeRun p cs
      (c :: a, b)
    else ([], c :: cs)

/-- The `(xlsx|csv)` alternation; `re.match` anchors only at the start, so
trailing characters after the extension are allowed. -/
def matchExt : List Char → Option String
  | 'x' :: 'l' :: 's' :: 'x' :: _ => some "xlsx"
  | 'c' :: 's' :: 'v' :: _ => some "csv"
  | _ => none

/-- Structural match of `([A-Z]+)-([A-Z]+)-(\d+)-(\d+)\.(xlsx|csv)`. -/
def matchPattern1 (cs : List Char) :
    Option (String × String × String × String × String) :=
  let (b, rest1) := takeRun Char.isUpper cs
  if b.isEmpty then none else
  match rest1 with
  | '-' :: rest2 =>
    let (ch, rest3) := takeRun Char.isUpper rest2
    if ch.isEmpty then none else
    match rest3 with
    | '-' :: rest4 =>
      let (d, rest5) := takeRun Char.isDigit rest4
      if d.isEmpty then none else
      match rest5 with
      | '-' :: rest6 =>
        let (bt, rest7) := takeRun Char.isDigit rest6
        if bt.isEmpty then none else
        match rest7 with
        | '.' :: rest8 =>
          match matchExt rest8 with
          | some ext =>
              some (String.mk b, String.mk ch, String.mk d, String.mk bt, ext)
          | none => none
        | _ => none
      | _ => none
    | _ => none
  | _ => none

/-- Structural match of `([A-Z]+)-([A-Z]+)-(\d+)\.(xlsx|csv)`. -/
def matchPattern2 (cs : List Char) :
    Option (String × String × String × String) :=
  let (b, rest1) := takeRun Char.isUpper cs
  if b.isEmpty then none else
  match rest1 with
  | '-' :: rest2 =>
    let (ch, rest3) := takeRun Char.isUpper rest2
    if ch.isEmpty then none else
    match rest3 with
    | '-' :: rest4 =>
      let (bt, rest5) := takeRun Char.isDigit rest4
      if bt.isEmpty then none else
      match rest5 with
      | '.' :: rest6 =>
        match matchExt rest6 with
        | some ext => some (String.mk b, String.mk ch, String.mk bt, ext)
        | none => none
      | _ => none
    | _ => none
  | _ => none

/-- Embedding of `re.sub(r'-+\.(xlsx|csv)$', r'.\1', filename)`: strip dashes directly
before the final extension. -/
def cleanupFilename (fn : String) : String :=
  let cs := fn.toList
  let dropDashes := fun (l : List Char) =>
    (l.reverse.dropWhile (fun c => c = '-')).reverse
  if strEndsWith fn ".xlsx" then
    String.mk (dropDashes (cs.take (cs.length - 5)) ++ ".xlsx".toList)
  else if strEndsWith fn ".csv" then
    String.mk (dropDashes (cs.take (cs.length - 4)) ++ ".csv".toList)
  else fn

/-- Embedding of `parse_filename` (main.py lines 1629-1699): clean the filename, try the
dated pattern then the simplified one (implicit date `"1"`), validating
name lengths, the 1–31 date token and the ≤3-digit batch token.  The
`os.path.basename` sanitization is the identity on the plain filenames the
pipeline receives. -/
def parseFilename (filename : String) : ParseResult :=
  let fn := cleanupFilename filename
  match matchPattern1 fn.toList with
  | some (brand, channel, date, batch, ext) =>
    if brand.length > 20 ∨ channel.length > 20 then
      .invalid "Brand or sales channel name too long"
    else if ¬(date.toList.all Char.isDigit ∧ 1 ≤ digitsToNat date ∧
        digitsToNat date ≤ 31) then
      .invalid "Invalid date format in filename"
    else if ¬(batch.toList.all Char.isDigit ∧ batch.length ≤ 3) then
      .invalid "Invalid batch format in filename"
    else .ok ⟨brand, channel, date, batch, ext⟩
  | none =>
    match matchPattern2 fn.toList with
    | some (brand, channel, batch, ext) =>
      if brand.length > 20 ∨ channel.length > 20 then
        .invalid "Brand or sales channel name too long"
      else if ¬(batch.toList.all Char.isDigit ∧ batch.length ≤ 3) then
        .invalid "Invalid batch format in filename"
      else .ok ⟨brand, channel, "1", batch, ext⟩
    | none => .noMatch

/-! ## Marketplace schema registry (`MARKETPLACE_MAPPINGS`, main.py lines
1434-1544) -/

/-- One marketplace's schema descriptor.  Only the fields the upload
pipeline reads are embedded; Jubelio's extra customer/shop-key entries are
unused by `process_upload_background`.  A `none` models either an explicit
`None` value or, for `sku_field`, an absent key (read with `.get`). -/
structure Mapping where
  brand : String
  order_number : String
  order_status : String
  order_date : Option String
  wh_loc : Option String
  awb : String
  transporter : Option String
  sla : Option String
  sku_field : Option String
deriving Repr, DecidableEq

/-- Embedding of `get_marketplace_mapping` over the static `MARKETPLACE_MAPPINGS`
table. -/
def marketplaceMappings : String → Option Mapping
  | "tiktok" => some
    { brand := "TIKTOK", order_number := "Order ID",
      order_status := "Order Substatus", order_date := some "Created Time",
      wh_loc := some "Warehouse Name", awb := "Tracking ID",
      transporter := some "Shipping Provider Name", sla := none,
      sku_field := some "Seller SKU" }
  | "zalora" => some
    { brand := "ZALORA", order_number := "Order Number",
      order_status := "Status", order_date := some "Created at",
      wh_loc := none, awb := "Tracking Code",
      transporter := some "Shipping Provider", sla := none,
      sku_field := none }
  | "shopee" => some
    { brand := "SHOPEE", order_number := "No. Pesanan",
      order_status := "Status Pesanan",
      order_date := some "Waktu Pesanan Dibuat",
      wh_loc := some "Nama Gudang", awb := "No. Resi",
      transporter := some "Opsi Pengiriman",
      sla := some "Pesanan Harus Dikirimkan Sebelum (Menghindari keterlambatan)",
      sku_field := some "Nomor Referensi SKU" }
  | "lazada" => some
    { brand := "LAZADA", order_number := "orderNumber",
      order_status := "status", order_date := some "createTime",
      wh_loc := some "wareHouse", awb := "trackingCode",
      transporter := some "shippingProvider", sla := some "ttsSla",
      sku_field := some "sellerSku" }
  | "tokopedia" => some
    { brand := "TOKOPEDIA", order_number := "Nomor Invoice",
      order_status := "Status Terakhir", order_date := none,
      wh_loc := none, awb := "No Resi / Kode Booking",
      transporter := none, sla := none, sku_field := none }
  | "blibli" => some
    { brand := "BLIBLI", order_number := "No. Order",
      order_status := "Order Status", order_date := some "Tanggal Order",
      wh_loc := none, awb := "No. Awb",
      transporter := some "Servis Logistik", sla := none,
      sku_field := some "Merchant SKU" }
  | "ginee" => some
    { brand := "GINEE", order_number := "Order ID",
      order_status := "Status", order_date := some "Create Time",
      wh_loc := none, awb := "AWB/Tracking code",
      transporter := some "Courier", sla := some "Ship Before",
      sku_field := some "SKU" }
  | "desty" => some
    { brand := "DESTY", order_number := "Nomor Pesanan\n(di Desty)",
      order_status := "Status Pesanan",
      order_date := some "Tanggal Pesanan Dibuat",
      wh_loc := some "Nama Gudang\nMaster", awb := "Nomor AWB/Resi",
      transporter := some "Kurir", sla := some "Dikirim Sebelum",
      sku_field := some "SKU Marketplace" }
  | "jubelio" => some
    { brand := "JUBELIO", order_number := "salesorder_no",
      order_status := "internal_status", order_date := some "created_date",
      wh_loc := some "location_name", awb := "tracking_no",
      transporter := some "shipper", sla := some "shipment_type",
      sku_field := some "SKU" }
  | _ => none

/-- The required-column check (main.py lines 977-989): order number,
status, date and tracking columns, skipping entries whose mapped name is
`None` (Python falsiness). -/
def requiredMissing (m : Mapping) (cols : List String) : List String :=
  ([some m.order_number, some m.order_status, m.order_date,
    some m.awb].filterMap id).filter (fun c => c ∉ cols)

/-! ## Spreadsheets -/

/-- A parsed tabular file: the column names and the rows, each row an
association from column name to cell (`none` = `NaN`). -/
structure Sheet where
  columns : List String
  rows : List (List (String × Option String))
deriving Repr, DecidableEq

/-- Reading `df[col].fillna('')` guarded by `col in df.columns` (absent column
yields `''` everywhere, matching the `else ''` fallbacks). -/
def cellValue (sheet : Sheet) (row : List (String × Option String))
    (c : String) : String :=
  if c ∈ sheet.columns then ((row.lookup c).bind id).getD "" else ""

/-- The `if col and col in df.columns else ''` pattern for optional
mapped columns. -/
def cellValueOpt (sheet : Sheet) (row : List (String × Option String))
    (c : Option String) : String :=
  match c with
  | none => ""
  | some cn => cellValue sheet row cn

/-- Raw cell access without `fillna` (the date column is read raw before
`pd.to_datetime`). -/
def cellRaw (row : List (String × Option String)) (c : String) :
    Option String :=
  (row.lookup c).bind id

/-! ## Chunked reconciliation inside the pipeline (main.py lines
1159-1231) -/

/-- Partition into chunks of `EXTERNAL_CHUNK_SIZE = 100`, with the list
length as structural fuel. -/
def chunksAux : Nat → List String → List (List String)
  | 0, _ => []
  | _, [] => []
  | fuel + 1, l => l.take 100 :: chunksAux fuel (l.drop 100)

/-- The `range(0, len(order_numbers_list), EXTERNAL_CHUNK_SIZE)` slicing. -/
def chunks100 (l : List String) : List (List String) := chunksAux l.length l

/-- Python `dict.update`: entries of `upd` override entries of `old`. -/
def dictUpdate (old upd : List (String × IEntry)) :
    List (String × IEntry) :=
  old.filter (fun p => upd.lookup p.1 = none) ++ upd

/-- The per-marketplace chunk loop (main.py lines 1179-1229): each chunk
either merges its `check_interface_status` result or — on watchdog timeout
or an exception — merges `{}`.  `chunkOk i` tells whether chunk `i`'s
query completed within its 30-second watchdog. -/
def reconcileChunks (orderNumbers : List String) (ext : ExternalDb)
    (chunkOk : Nat → Bool) : List (String × IEntry) :=
  (chunks100 orderNumbers).enum.foldl
    (fun acc ic =>
      if chunkOk ic.1 then dictUpdate acc (checkInterfaceStatus ic.2 ext)
      else dictUpdate acc [])
    []

/-! ## The background pipeline (`process_upload_background`, main.py lines
898-1417) -/

/-- Observable side effects of one pipeline run, in order: the task set to
`processing`, the upload-history insert, an external-system query attempt,
a write to the order store. -/
inductive Ev where
  | taskProcessing
  | historyWrite
  | externalQuery
  | storeWrite
deriving Repr, DecidableEq

/-- Final observable state of one pipeline run. -/
structure Outcome where
  taskStatus : String
  errorMessage : Option String
  events : List Ev
  store : List OrderRec
  newCount : Nat
  replacedCount : Nat
deriving Repr, DecidableEq

/-- Ambient context of a pipeline run: the wall clock, the task id, the
submitting user, abstract date parsers (`pd.to_datetime` with WIB
conversion, and `strptime('%Y%m%d')` for the Tokopedia filename token),
the external system, and the per-chunk watchdog outcome. -/
structure PipelineEnv where
  currentTime : Nat
  taskId : String
  pic : String
  parseDate : String → Option Nat
  parseYmd : String → Option Nat
  ext : ExternalDb
  chunkOk : Nat → Bool

/-- A failed run: task `failed` with the exception message, effects so
far, store untouched. -/
def failOutcome (store : List OrderRec) (events : List Ev) (msg : String) :
    Outcome :=
  { taskStatus := "failed", errorMessage := some msg, events := events,
    store := store, newCount := 0, replacedCount := 0 }

/-- The validation-and-extraction prefix of `process_upload_background`
(main.py lines 903-1139, everything before the reconciler): parse and
validate the filename; check the extension; resolve the marketplace
mapping; insert the upload-history record; check required columns; reject
when no valid order number exists; process dates (the Tokopedia branch
reads `valid_df[order_date_col]` with a `None` column name — a
`KeyError`); extract the processed rows.  An error carries the events
performed so far and the exception message. -/
def validatePhase (currentTime : Nat) (parseDate parseYmd : String → Option Nat)
    (filename : String) (sheet : Sheet) :
    Except (List Ev × String) (FilenameInfo × Mapping × List PRow) :=
  let ev0 := [Ev.taskProcessing]
  match parseFilename filename with
  | .noMatch => .error (ev0, "Invalid filename format")
  | .invalid msg => .error (ev0, msg)
  | .ok info =>
  if ¬(strEndsWith filename ".xlsx" ∨ strEndsWith filename ".csv") then
    .error (ev0, "Unsupported file format")
  else
  match marketplaceMappings (lowerStr info.sales_channel) with
  | none => .error (ev0, "Unsupported sales channel: " ++ info.sales_channel)
  | some m =>
  let ev1 := ev0 ++ [Ev.historyWrite]
  let missing := requiredMissing m sheet.columns
  if missing ≠ [] then
    .error (ev1,
      "Missing required columns for " ++ info.sales_channel ++ ": " ++
        String.intercalate ", " missing)
  else
  let rawONs := sheet.rows.map (fun row => cellValue sheet row m.order_number)
  let nonEmptyCount :=
    (rawONs.filter (fun v => v ≠ "" ∧ v ≠ "nan" ∧ trimStr v ≠ "")).length
  if nonEmptyCount = 0 then
    .error (ev1, "No valid order numbers found in " ++ m.order_number ++ " column")
  else
  let tokDate :=
    if lowerStr info.sales_channel = "tokopedia" then
      (parseYmd info.date).getD currentTime
    else currentTime
  let validRows := sheet.rows.filter (fun row =>
    let v := cellValue sheet row m.order_number
    v ≠ "" ∧ v ≠ "nan")
  if validRows = [] then
    .error (ev1, "No valid order numbers found")
  else
  let datesE : Except String (List Nat) :=
    if lowerStr info.sales_channel = "tokopedia" then
      match m.order_date with
      | none => .error "None"
      | some c =>
        if c ∈ sheet.columns then
          .ok (validRows.map (fun row =>
            match cellRaw row c with
            | none => tokDate
            | some s =>
              if s = "" then tokDate
              else (parseDate s).getD currentTime))
        else .error c
    else
      match m.order_date with
      | none => .error "None"
      | some c =>
        if c ∈ sheet.columns then
          .ok (validRows.map (fun row =>
            ((cellRaw row c).bind parseDate).getD currentTime))
        else .error c
  match datesE with
  | .error msg => .error (ev1, msg)
  | .ok dates =>
  .ok (info, m, (validRows.zip dates).map (fun rd =>
    ({ orderNumber := trimStr (cellValue sheet rd.1 m.order_number)
       status := cellValue sheet rd.1 m.order_status
       awb := cellValueOpt sheet rd.1 (some m.awb)
       transporter := cellValueOpt sheet rd.1 m.transporter
       date := rd.2
       sla := cellValueOpt sheet rd.1 m.sla
       sku := cellValueOpt sheet rd.1 m.sku_field } : PRow)))

/-- Embedding of `process_upload_background` (main.py lines 898-1417): run the
validation/extraction prefix; on error the task fails with the exception
message; otherwise normalize, reconcile in 100-order chunks under the
watchdog, assign interface results, upsert, and complete the task. -/
def processUpload (penv : PipelineEnv) (filename : String) (sheet : Sheet)
    (store : List OrderRec) : Outcome :=
  match validatePhase penv.currentTime penv.parseDate penv.parseYmd filename sheet with
  | .error em => failOutcome store em.1 em.2
  | .ok im =>
    let info := im.1
    let canon := normalize im.2.2
    let checkKeys := (canon.map (·.orderNumber)).filter (fun k => k ≠ "")
    let ev2 := [Ev.taskProcessing, Ev.historyWrite] ++
      (if checkKeys ≠ [] then [Ev.externalQuery] else [])
    let iresults :=
      if checkKeys = [] then []
      else reconcileChunks checkKeys penv.ext penv.chunkOk
    let env : Env :=
      { marketplace := info.sales_channel, brand := info.brand,
        batch := info.batch, pic := penv.pic, uploadDate := penv.currentTime,
        taskId := penv.taskId, interfaceResults := iresults }
    let ures := upsertOrders store (canon.map (mkOrderRec env))
    { taskStatus := "completed", errorMessage := none,
      events := ev2 ++ [Ev.storeWrite], store := ures.store,
      newCount := ures.newCount, replacedCount := ures.replacedCount }

/-! ## Pipeline fixtures and control-flow lemmas -/

/-- A sample pipeline context: external connection failed (`ext = none`),
no chunk timed out, dates unparseable. -/
def pipeEnvSample : PipelineEnv :=
  { currentTime := 100, taskId := "t1", pic := "user",
    parseDate := fun _ => none, parseYmd := fun _ => none,
    ext := none, chunkOk := fun _ => true }

/-- A one-order Shopee sheet with all required columns. -/
def shopeeSheet : Sheet :=
  { columns := ["No. Pesanan", "Status Pesanan", "Waktu Pesanan Dibuat",
      "No. Resi"],
    rows := [[("No. Pesanan", some "S-100"),
      ("Status Pesanan", some "shipped"),
      ("Waktu Pesanan Dibuat", some "01/01/2026"),
      ("No. Resi", some "AWB1")]] }

/-- A one-order Tokopedia sheet with all of that marketplace's required
columns (its schema has no date column). -/
def tokoSheet : Sheet :=
  { columns := ["Nomor Invoice", "Status Terakhir", "No Resi / Kode Booking"],
    rows := [[("Nomor Invoice", some "INV-1"),
      ("Status Terakhir", some "done"),
      ("No Resi / Kode Booking", some "RESI1")]] }

/-- A sheet missing every required Shopee column. -/
def missingColSheet : Sheet :=
  { columns := ["foo"], rows := [[("foo", some "x")]] }

/-- Every validation failure happens with either only the task-processing
effect, or with the upload-history insert already committed. -/
theorem validatePhase_error_events (ct : Nat)
    (pd py : String → Option Nat) (fn : String) (sheet : Sheet)
    (em : List Ev × String)
    (h : validatePhase ct pd py fn sheet = .error em) :
    em.1 = [Ev.taskProcessing] ∨ em.1 = [Ev.taskProcessing, Ev.historyWrite] := by
  simp only [validatePhase] at h
  repeat' split at h
  all_goals
    first
    | exact Except.noConfusion h
    | (injection h with h2; subst h2; simp)

/-- A failed pipeline run leaves the store untouched and performed at most
the task-processing and history-write effects. -/
theorem processUpload_failed_cases (penv : PipelineEnv) (fn : String)
    (sheet : Sheet) (store : List OrderRec)
    (h : (processUpload penv fn sheet store).taskStatus = "failed") :
    ∃ msg evs,
      (evs = [Ev.taskProcessing] ∨ evs = [Ev.taskProcessing, Ev.historyWrite]) ∧
      processUpload penv fn sheet store = failOutcome store evs msg := by
  cases hv : validatePhase penv.currentTime penv.parseDate penv.parseYmd fn sheet with
  | error em =>
    refine ⟨em.2, em.1, validatePhase_error_events _ _ _ _ _ em hv, ?_⟩
    simp only [processUpload, hv]
  | ok im =>
    exfalso
    simp only [processUpload, hv] at h
    simp at h

/-! ## C4 — validation failures abort the pipeline -/

/-- C4 counterexample: a file with a valid name and extension but missing
required columns fails validation only after the upload-history record has
been committed — a write to persistent state before the abort. -/
theorem missing_columns_failure_after_history_write :
    (processUpload pipeEnvSample "AURA-SHOPEE-5-1.xlsx" missingColSheet
      []).taskStatus = "failed" ∧
    (processUpload pipeEnvSample "AURA-SHOPEE-5-1.xlsx" missingColSheet
      []).errorMessage = some
        ("Missing required columns for SHOPEE: No. Pesanan, " ++
          "Status Pesanan, Waktu Pesanan Dibuat, No. Resi") ∧
    Ev.historyWrite ∈ (processUpload pipeEnvSample "AURA-SHOPEE-5-1.xlsx"
      missingColSheet []).events := by decide

/-- C4 (amended): every pipeline failure — in particular every validation
failure (unparseable filename, unsupported extension, missing required
column, zero parseable order numbers) — aborts before any external-system
call and before any write to the order store, and the task is set to
Failed carrying the specific cause; unparseable-filename and
unsupported-extension failures additionally precede the upload-history
insert, but missing-column and zero-order failures occur after an
upload-history record has been committed. -/
theorem validation_failure_aborts_early (penv : PipelineEnv) (fn : String)
    (sheet : Sheet) (store : List OrderRec) :
    ((processUpload penv fn sheet store).taskStatus = "failed" →
      Ev.externalQuery ∉ (processUpload penv fn sheet store).events ∧
      Ev.storeWrite ∉ (processUpload penv fn sheet store).events ∧
      (processUpload penv fn sheet store).store = store ∧
      (processUpload penv fn sheet store).errorMessage ≠ none) ∧
    (parseFilename fn = .noMatch →
      processUpload penv fn sheet store =
        failOutcome store [Ev.taskProcessing] "Invalid filename format") ∧
    (∀ msg, parseFilename fn = .invalid msg →
      processUpload penv fn sheet store =
        failOutcome store [Ev.taskProcessing] msg) ∧
    (∀ info, parseFilename fn = .ok info →
      ¬(strEndsWith fn ".xlsx" ∨ strEndsWith fn ".csv") →
      processUpload penv fn sheet store =
        failOutcome store [Ev.taskProcessing] "Unsupported file format") := by
  refine ⟨?_, ?_, ?_, ?_⟩
  · intro h
    obtain ⟨msg, evs, hevs, hout⟩ := processUpload_failed_cases penv fn sheet store h
    rw [hout]
    rcases hevs with rfl | rfl <;>
      exact ⟨by simp [failOutcome], by simp [failOutcome], rfl, by simp [failOutcome]⟩
  · intro hp
    simp only [processUpload, validatePhase, hp]
  · intro msg hp
    simp only [processUpload, validatePhase, hp]
  · intro info hp hext
    simp only [processUpload, validatePhase, hp, hext, not_false_eq_true,
      if_true]

/-- Witness for C4 (amended) at a concrete input: a structurally invalid
filename. -/
theorem validation_failure_aborts_early_witness :
    ((processUpload pipeEnvSample "badname.xlsx" shopeeSheet []).taskStatus =
        "failed" →
      Ev.externalQuery ∉
        (processUpload pipeEnvSample "badname.xlsx" shopeeSheet []).events ∧
      Ev.storeWrite ∉
        (processUpload pipeEnvSample "badname.xlsx" shopeeSheet []).events ∧
      (processUpload pipeEnvSample "badname.xlsx" shopeeSheet []).store = [] ∧
      (processUpload pipeEnvSample "badname.xlsx" shopeeSheet
        []).errorMessage ≠ none) ∧
    (parseFilename "badname.xlsx" = .noMatch →
      processUpload pipeEnvSample "badname.xlsx" shopeeSheet [] =
        failOutcome [] [Ev.taskProcessing] "Invalid filename format") ∧
    (∀ msg, parseFilename "badname.xlsx" = .invalid msg →
      processUpload pipeEnvSample "badname.xlsx" shopeeSheet [] =
        failOutcome [] [Ev.taskProcessing] msg) ∧
    (∀ info, parseFilename "badname.xlsx" = .ok info →
      ¬(strEndsWith "badname.xlsx" ".xlsx" ∨ strEndsWith "badname.xlsx" ".csv") →
      processUpload pipeEnvSample "badname.xlsx" shopeeSheet [] =
        failOutcome [] [Ev.taskProcessing] "Unsupported file format") :=
  validation_failure_aborts_early pipeEnvSample "badname.xlsx" shopeeSheet []

/-! ## C6 — orders absent from the external result set -/

/-- C6 counterexample: with the external connection failed, the upload
still completes and its order is persisted `Not Yet Interface` — but the
foreign order status is persisted as the empty string, not as `NULL`. -/
theorem external_connection_failure_fields_not_null :
    (processUpload pipeEnvSample "AURA-SHOPEE-5-1.xlsx" shopeeSheet
      []).taskStatus = "completed" ∧
    ((processUpload pipeEnvSample "AURA-SHOPEE-5-1.xlsx" shopeeSheet
      []).store.map (fun r =>
        (r.InterfaceStatus, r.OrderNumberFlexo, r.OrderStatusFlexo,
          r.ItemIdFlexo))) =
      [("Not Yet Interface", none, some "", none)] ∧
    ¬(∀ r ∈ (processUpload pipeEnvSample "AURA-SHOPEE-5-1.xlsx" shopeeSheet
        []).store, r.OrderStatusFlexo = none) := by decide

/-- C6 (amended): every order number absent from the external result set
(a `notFound` reconciliation entry — including all orders of a marketplace
whose connection attempt failed — or an entry dropped by a failed chunk)
is persisted with interface status `Not Yet Interface`, a `NULL` foreign
item-id list, the empty string for the foreign order status, and `NULL` or
the empty string for the foreign order number (the update path collapses
`NULL` to `''`); and an external failure never changes the task's final
status (the upload is not aborted). -/
theorem absent_orders_degraded_not_aborted :
    (∀ (env : Env) (c : CanonRec),
      (env.interfaceResults.lookup c.orderNumber = some .notFound ∨
        env.interfaceResults.lookup c.orderNumber = none) →
      (mkOrderRec env c).InterfaceStatus = "Not Yet Interface" ∧
      (mkOrderRec env c).ItemIdFlexo = none ∧
      (mkOrderRec env c).OrderStatusFlexo = some "" ∧
      ((mkOrderRec env c).OrderNumberFlexo = none ∨
        (mkOrderRec env c).OrderNumberFlexo = some "") ∧
      (normFlexo (mkOrderRec env c)).OrderNumberFlexo = some "" ∧
      (normFlexo (mkOrderRec env c)).OrderStatusFlexo = some "") ∧
    (∀ (penv : PipelineEnv) (fn : String) (sheet : Sheet)
        (store : List OrderRec),
      (processUpload { penv with ext := none } fn sheet store).taskStatus =
        (processUpload penv fn sheet store).taskStatus) := by
  constructor
  · intro env c habs
    rcases habs with h | h <;>
      simp [mkOrderRec, h, IEntry.statusValue, IEntry.systemRefId,
        IEntry.orderStatusDefault, IEntry.itemIdFlexo, normFlexo]
  · intro penv fn sheet store
    simp only [processUpload]
    cases hv : validatePhase penv.currentTime penv.parseDate penv.parseYmd
        fn sheet <;> rfl

/-- Witness for C6 (amended) at a concrete input: the `notFound` entry
built for order `S-100` after a failed external connection. -/
theorem absent_orders_degraded_not_aborted_witness :
    ((envNotFound.interfaceResults.lookup "S-100" = some .notFound ∨
        envNotFound.interfaceResults.lookup "S-100" = none) ∧
      ((mkOrderRec envNotFound
          { orderNumber := "S-100", status := "shipped", awb := "AWB1",
            transporter := "JNE", date := 5, sla := "",
            sku := some "SKU-A" }).InterfaceStatus = "Not Yet Interface" ∧
        (mkOrderRec envNotFound
          { orderNumber := "S-100", status := "shipped", awb := "AWB1",
            transporter := "JNE", date := 5, sla := "",
            sku := some "SKU-A" }).ItemIdFlexo = none ∧
        (mkOrderRec envNotFound
          { orderNumber := "S-100", status := "shipped", awb := "AWB1",
            transporter := "JNE", date := 5, sla := "",
            sku := some "SKU-A" }).OrderStatusFlexo = some "" ∧
        ((mkOrderRec envNotFound
          { orderNumber := "S-100", status := "shipped", awb := "AWB1",
            transporter := "JNE", date := 5, sla := "",
            sku := some "SKU-A" }).OrderNumberFlexo = none ∨
          (mkOrderRec envNotFound
          { orderNumber := "S-100", status := "shipped", awb := "AWB1",
            transporter := "JNE", date := 5, sla := "",
            sku := some "SKU-A" }).OrderNumberFlexo = some "") ∧
        (normFlexo (mkOrderRec envNotFound
          { orderNumber := "S-100", status := "shipped", awb := "AWB1",
            transporter := "JNE", date := 5, sla := "",
            sku := some "SKU-A" })).OrderNumberFlexo = some "" ∧
        (normFlexo (mkOrderRec envNotFound
          { orderNumber := "S-100", status := "shipped", awb := "AWB1",
            transporter := "JNE", date := 5, sla := "",
            sku := some "SKU-A" })).OrderStatusFlexo = some "")) :=
  ⟨by decide,
    absent_orders_degraded_not_aborted.1 envNotFound
      { orderNumber := "S-100", status := "shipped", awb := "AWB1",
        transporter := "JNE", date := 5, sla := "", sku := some "SKU-A" }
      (by decide)⟩

/-! ## C9 — the Tokopedia date default -/

/-- C9: a Tokopedia upload with a valid filename and all of that
marketplace's required columns does not complete: the pipeline fails with
the `KeyError` raised by reading the schema's `None` date column
(`valid_df[order_date_col]`), before any write to the order store. -/
theorem tokopedia_upload_fails_keyerror :
    (processUpload pipeEnvSample "AURA-TOKOPEDIA-5-1.xlsx" tokoSheet
      []).taskStatus = "failed" ∧
    (processUpload pipeEnvSample "AURA-TOKOPEDIA-5-1.xlsx" tokoSheet
      []).errorMessage = some "None" ∧
    Ev.storeWrite ∉ (processUpload pipeEnvSample "AURA-TOKOPEDIA-5-1.xlsx"
      tokoSheet []).events := by decide

/-! ## Orderlist handoff writer (`generate_orderlist_for_not_interfaced`
and `verify_and_restore_orderlist`, main.py lines 1776-1994) -/

/-- A flat filesystem: path → file content. -/
abbrev FS := List (String × String)

/-- Read a file (`open(path)` / `os.path.exists`). -/
def fsRead (fs : FS) (p : String) : Option String := fs.lookup p

/-- Write (create or overwrite) a file. -/
def fsWrite (fs : FS) (p : String) (content : String) : FS :=
  (fs.filter (fun e => e.1 ≠ p)) ++ [(p, content)]

/-- Split a character list on newlines (kernel-computable `str.split`). -/
def splitNl : List Char → List (List Char)
  | [] => [[]]
  | c :: cs =>
    let rest := splitNl cs
    if c = '\n' then [] :: rest
    else (c :: rest.headD []) :: rest.tail

/-- The verifier's line count (main.py lines 1952-1954): the number of
lines whose `strip()` is non-empty. -/
def countOrderLines (content : String) : Nat :=
  (((splitNl content.toList).map String.mk).filter
    (fun l => trimStr l ≠ "")).length

/-- One line of the orderlist (main.py lines 1875-1884): Zalora and Blibli
use `orderNumber,shopKey` when a shop key exists, everything else (and a
missing key) writes the bare order number. -/
def orderlistLine (channel : String) (shopId : Option String)
    (num : String) : String :=
  if lowerStr channel = "zalora" ∨ lowerStr channel = "blibli" then
    match shopId with
    | some sid => num ++ "," ++ sid ++ "\n"
    | none => num ++ "\n"
  else num ++ "\n"

/-- The sequential `f.write` loop producing the orderlist body. -/
def orderlistContent (channel : String) (shopId : Option String) :
    List String → String
  | [] => ""
  | num :: rest =>
    orderlistLine channel shopId num ++ orderlistContent channel shopId rest

/-- Embedding of `verify_and_restore_orderlist` (main.py lines 1937-1994): count the
non-blank lines and compare with the expected count; on a missing file or
a mismatch, attempt restoration from the backup.  The pipeline always
passes `backup_path=None` (backups were removed); `os.path.exists(None)`
raises a `TypeError`, which the function's own handler turns into
`False`. -/
def verifyAndRestoreOrderlist (fs : FS) (orderlistPath : String)
    (backupPath : Option String) (expectedCount : Nat) : Bool × FS :=
  match fsRead fs orderlistPath with
  | none =>
    match backupPath with
    | none => (false, fs)
    | some bp =>
      match fsRead fs bp with
      | some content => (true, fsWrite fs orderlistPath content)
      | none => (false, fs)
  | some content =>
    if countOrderLines content = expectedCount then (true, fs)
    else
      match backupPath with
      | none => (false, fs)
      | some bp =>
        match fsRead fs bp with
        | some bcontent =>
          let fs2 := fsWrite fs orderlistPath bcontent
          if countOrderLines bcontent = expectedCount then (true, fs2)
          else (false, fs2)
        | none => (false, fs)

/-- Result of `generate_orderlist_for_not_interfaced`. -/
structure GenResult where
  success : Bool
  orderCount : Nat
  shopIdWarning : Bool
  verified : Bool
  fs : FS
deriving Repr

/-- The marketplace folders known to the writer (main.py lines
1787-1796). -/
def knownOrderlistChannels : List String :=
  ["shopee", "lazada", "blibli", "desty", "ginee", "tiktok", "zalora",
    "jubelio"]

/-- Embedding of `generate_orderlist_for_not_interfaced` (main.py lines 1776-1933):
keep only the `Not Yet Interface` orders (skip when none), resolve the
marketplace folder (skip when unknown), record a warning — not a failure —
when the shop key is missing, write one line per non-empty order number to
the task-scoped path, then verify (with no backup); a verification
failure is only logged and generation still succeeds. -/
def generateOrderlist (fs : FS) (orders : List OrderRec)
    (channel : String) (shopId : Option String) (path : String) :
    GenResult :=
  let notInterfaced :=
    orders.filter (fun o => o.InterfaceStatus = "Not Yet Interface")
  if notInterfaced = [] then
    { success := false, orderCount := 0, shopIdWarning := false,
      verified := false, fs := fs }
  else if lowerStr channel ∉ knownOrderlistChannels then
    { success := false, orderCount := 0, shopIdWarning := false,
      verified := false, fs := fs }
  else
    let warning := shopId = none
    let orderNumbers :=
      (notInterfaced.map (·.OrderNumber)).filter (fun num => num ≠ "")
    let fs1 := fsWrite fs path (orderlistContent channel shopId orderNumbers)
    let vr := verifyAndRestoreOrderlist fs1 path none orderNumbers.length
    { success := true, orderCount := orderNumbers.length,
      shopIdWarning := warning, verified := vr.1, fs := vr.2 }

/-! ### Lemmas: line counting of the written artifact -/

theorem mem_dropWhile_of_neg {p : Char → Bool} {c : Char} :
    ∀ {l : List Char}, c ∈ l → p c = false → c ∈ l.dropWhile p := by
  intro l
  induction l with
  | nil => intro h _; exact absurd h (List.not_mem_nil c)
  | cons x xs ih =>
    intro hc hp
    by_cases hx : p x = true
    · rw [List.dropWhile_cons_of_pos hx]
      rcases List.mem_cons.mp hc with rfl | hm
      · rw [hp] at hx; exact Bool.noConfusion hx
      · exact ih hm hp
    · rw [List.dropWhile_cons_of_neg hx]
      exact hc

theorem mem_trimStr_of_not_ws {c : Char} {s : String}
    (hc : c ∈ s.toList) (hw : c.isWhitespace = false) :
    c ∈ (trimStr s).toList := by
  show c ∈ (((s.toList.dropWhile Char.isWhitespace).reverse.dropWhile
    Char.isWhitespace).reverse)
  rw [List.mem_reverse]
  apply mem_dropWhile_of_neg _ hw
  rw [List.mem_reverse]
  exact mem_dropWhile_of_neg hc hw

theorem splitNl_body_append (body : List Char) (rest : List Char)
    (h : '\n' ∉ body) :
    splitNl (body ++ '\n' :: rest) = body :: splitNl rest := by
  induction body with
  | nil => simp [splitNl]
  | cons c cs ih =>
    have hc : ¬(c = '\n') := fun hcc => h (hcc ▸ List.mem_cons_self c cs)
    have hcs : '\n' ∉ cs := fun hm => h (List.mem_cons_of_mem c hm)
    rw [List.cons_append]
    rw [show splitNl (c :: (cs ++ '\n' :: rest)) =
      (if c = '\n' then [] :: splitNl (cs ++ '\n' :: rest)
       else (c :: (splitNl (cs ++ '\n' :: rest)).headD []) ::
         (splitNl (cs ++ '\n' :: rest)).tail) from rfl]
    rw [ih hcs, if_neg hc]
    rfl

theorem orderlistLine_split (channel : String) (shopId : Option String)
    (num : String) (hn : '\n' ∉ num.toList)
    (hsid : ∀ sid, shopId = some sid → '\n' ∉ sid.toList) :
    ∃ body, orderlistLine channel shopId num = String.mk (body ++ ['\n']) ∧
      '\n' ∉ body ∧
      (trimStr (String.mk body) ≠ "" ↔
        (trimStr num ≠ "" ∨
          ((lowerStr channel = "zalora" ∨ lowerStr channel = "blibli") ∧
            shopId ≠ none))) := by
  unfold orderlistLine
  by_cases hch : lowerStr channel = "zalora" ∨ lowerStr channel = "blibli"
  · rw [if_pos hch]
    cases shopId with
    | none =>
      refine ⟨num.toList, ?_, hn, ?_⟩
      · show num ++ "\n" = String.mk (num.toList ++ ['\n'])
        rfl
      · simp
    | some sid =>
      refine ⟨num.toList ++ ','::sid.toList, ?_, ?_, ?_⟩
      · rw [String.ext_iff]
        show (num ++ "," ++ sid ++ "\n").data =
          (num.toList ++ ','::sid.toList) ++ ['\n']
        simp [String.data_append, String.toList, List.append_assoc]
      · intro hm
        rcases List.mem_append.mp hm with h1 | h2
        · exact hn h1
        · rcases List.mem_cons.mp h2 with h3 | h4
          · exact absurd h3 (by decide)
          · exact hsid sid rfl h4
      · constructor
        · intro _; exact Or.inr ⟨hch, by simp⟩
        · intro _
          intro hemp
          have : ',' ∈ (trimStr (String.mk (num.toList ++ ','::sid.toList))).toList := by
            apply mem_trimStr_of_not_ws
            · exact List.mem_append_right _ (List.mem_cons_self _ _)
            · decide
          rw [hemp] at this
          exact absurd this (by decide)
  · rw [if_neg hch]
    refine ⟨num.toList, ?_, hn, ?_⟩
    · show num ++ "\n" = String.mk (num.toList ++ ['\n'])
      rfl
    · constructor
      · intro h; exact Or.inl h
      · rintro (h | ⟨hc, _⟩)
        · exact h
        · exact absurd hc hch

theorem countOrderLines_orderlistContent (channel : String)
    (shopId : Option String)
    (hsid : ∀ sid, shopId = some sid → '\n' ∉ sid.toList) :
    ∀ (nums : List String),
      (∀ n ∈ nums, '\n' ∉ n.toList ∧ trimStr n ≠ "") →
      countOrderLines (orderlistContent channel shopId nums) = nums.length := by
  intro nums
  induction nums with
  | nil =>
    intro _
    show countOrderLines "" = 0
    decide
  | cons n rest ih =>
    intro hall
    obtain ⟨hn, hne⟩ := hall n (List.mem_cons_self n rest)
    obtain ⟨body, hline, hbody, hiff⟩ :=
      orderlistLine_split channel shopId n hn hsid
    show countOrderLines
      (orderlistLine channel shopId n ++ orderlistContent channel shopId rest) =
      rest.length + 1
    rw [hline]
    have hcat : (String.mk (body ++ ['\n']) ++
        orderlistContent channel shopId rest).toList =
        body ++ '\n' :: (orderlistContent channel shopId rest).toList := by
      show (body ++ ['\n']) ++ (orderlistContent channel shopId rest).data =
        body ++ '\n' :: (orderlistContent channel shopId rest).data
      rw [List.append_assoc]
      rfl
    unfold countOrderLines
    rw [hcat, splitNl_body_append body _ hbody]
    simp only [List.map_cons, List.filter_cons]
    have hkeep : (decide (trimStr (String.mk body) ≠ "")) = true := by
      rw [decide_eq_true_eq]
      exact hiff.mpr (Or.inl hne)
    rw [hkeep]
    simp only [if_true, List.length_cons]
    have hrec := ih (fun m hm => hall m (List.mem_cons_of_mem _ hm))
    unfold countOrderLines at hrec
    rw [hrec]

/-! ## C8 — orderlist verification and restore -/

/-- C8 counterexample: a written orderlist whose content was damaged to an
empty file (0 lines, 1 expected).  The verifier detects the mismatch and
attempts restoration, but the pipeline supplies no backup
(`verify_and_restore_orderlist(orderlist_path, None, ...)`,
"Backup functionality removed"), so the attempt fails, the file is left
unchanged, and the final line count 0 differs from the NotYetInterfaced
order count 1. -/
theorem orderlist_mismatch_not_repaired :
    (verifyAndRestoreOrderlist [("Orderlist_t1.txt", "")]
      "Orderlist_t1.txt" none 1).1 = false ∧
    (verifyAndRestoreOrderlist [("Orderlist_t1.txt", "")]
      "Orderlist_t1.txt" none 1).2 = [("Orderlist_t1.txt", "")] ∧
    countOrderLines
      (((verifyAndRestoreOrderlist [("Orderlist_t1.txt", "")]
        "Orderlist_t1.txt" none 1).2.lookup "Orderlist_t1.txt").getD "") = 0 ∧
    ¬(countOrderLines
      (((verifyAndRestoreOrderlist [("Orderlist_t1.txt", "")]
        "Orderlist_t1.txt" none 1).2.lookup "Orderlist_t1.txt").getD "") = 1) := by
  decide

/-- C8 (amended): after writing the orderlist the writer verifies that the
file's line count equals the expected NotYetInterfaced order count, and a
verification failure never blocks generation; but the caller passes no
backup, so a mismatch can never be repaired (the restore attempt fails and
leaves the file unchanged) — the final line count equals the
NotYetInterfaced order count only because the freshly written artifact has
exactly one non-blank line per order number. -/
theorem orderlist_verify_restore (fs : FS) (path : String) (exp : Nat)
    (content : String) :
    (fsRead fs path = some content →
      (verifyAndRestoreOrderlist fs path none exp).1 =
        decide (countOrderLines content = exp) ∧
      (verifyAndRestoreOrderlist fs path none exp).2 = fs) ∧
    (∀ (orders : List OrderRec) (channel : String) (shopId : Option String),
      orders.filter (fun o => o.InterfaceStatus = "Not Yet Interface") ≠ [] →
      lowerStr channel ∈ knownOrderlistChannels →
      (generateOrderlist fs orders channel shopId path).success = true) ∧
    (∀ (channel : String) (shopId : Option String) (nums : List String),
      (∀ sid, shopId = some sid → '\n' ∉ sid.toList) →
      (∀ n ∈ nums, '\n' ∉ n.toList ∧ trimStr n ≠ "") →
      countOrderLines (orderlistContent channel shopId nums) = nums.length) := by
  refine ⟨?_, ?_, ?_⟩
  · intro hread
    by_cases hc : countOrderLines content = exp
    · simp [verifyAndRestoreOrderlist, hread, hc]
    · simp [verifyAndRestoreOrderlist, hread, hc]
  · intro orders channel shopId hnotempty hknown
    unfold generateOrderlist
    rw [if_neg hnotempty]
    rw [if_neg (by simpa using hknown)]
  · intro channel shopId nums hsid hall
    exact countOrderLines_orderlistContent channel shopId hsid nums hall

/-- Witness for C8 (amended) at a concrete input: a correctly written
one-order artifact. -/
theorem orderlist_verify_restore_witness :
    (fsRead [("Orderlist_t1.txt", "S-100\n")] "Orderlist_t1.txt" =
        some "S-100\n" →
      (verifyAndRestoreOrderlist [("Orderlist_t1.txt", "S-100\n")]
        "Orderlist_t1.txt" none 1).1 =
        decide (countOrderLines "S-100\n" = 1) ∧
      (verifyAndRestoreOrderlist [("Orderlist_t1.txt", "S-100\n")]
        "Orderlist_t1.txt" none 1).2 = [("Orderlist_t1.txt", "S-100\n")]) ∧
    (∀ (orders : List OrderRec) (channel : String) (shopId : Option String),
      orders.filter (fun o => o.InterfaceStatus = "Not Yet Interface") ≠ [] →
      lowerStr channel ∈ knownOrderlistChannels →
      (generateOrderlist [("Orderlist_t1.txt", "S-100\n")] orders channel
        shopId "Orderlist_t1.txt").success = true) ∧
    (∀ (channel : String) (shopId : Option String) (nums : List String),
      (∀ sid, shopId = some sid → '\n' ∉ sid.toList) →
      (∀ n ∈ nums, '\n' ∉ n.toList ∧ trimStr n ≠ "") →
      countOrderLines (orderlistContent channel shopId nums) = nums.length) :=
  orderlist_verify_restore [("Orderlist_t1.txt", "S-100\n")]
    "Orderlist_t1.txt" 1 "S-100\n"

/-! ## C3 — the per-chunk watchdog race (main.py lines 1182-1224)

Three threads share `chunk_interface_results` (a `nonlocal` variable,
initially `{}`) and `timeout_occurred` (an `Event`):

* the watchdog timer: `timeout_occurred.set()` (`fire`);
* the query thread: `chunk_interface_results = check_interface_status(...)`
  (`assign`);
* the main thread, after `join(timeout=30)` returns: first
  `if timeout_occurred.is_set(): chunk_interface_results = {}` (`check`),
  then `interface_results.update(chunk_interface_results)` (`merge`).
-/

/-- The atomic actions of the three threads racing on one chunk. -/
inductive ChunkAct where
  | fire
  | assign
  | check
  | merge
deriving Repr, DecidableEq

/-- The shared state: the `nonlocal chunk_interface_results` variable, the
`timeout_occurred` flag, and the merged `interface_results`. -/
structure ChunkState where
  var : List (String × IEntry)
  flag : Bool
  merged : List (String × IEntry)
deriving Repr, DecidableEq

/-- Initial shared state (`chunk_interface_results = {}`). -/
def chunkInit : ChunkState := { var := [], flag := false, merged := [] }

/-- Effect of one action, with `R` the result the query eventually
produces. -/
def chunkStep (R : List (String × IEntry)) (s : ChunkState) :
    ChunkAct → ChunkState
  | .fire => { s with flag := true }
  | .assign => { s with var := R }
  | .check => if s.flag then { s with var := [] } else s
  | .merge => { s with merged := dictUpdate s.merged s.var }

/-- Run one interleaving (a schedule of the three threads' actions). -/
def chunkRun (R : List (String × IEntry)) (sched : List ChunkAct) :
    ChunkState :=
  sched.foldl (chunkStep R) chunkInit

/-- Position of the first occurrence of an action in a schedule. -/
def idxOfAct (a : ChunkAct) : List ChunkAct → Nat
  | [] => 0
  | x :: xs => if x = a then 0 else idxOfAct a xs + 1

/-- A schedule is a legal interleaving when the timer fires at most once,
the query thread assigns at most once, the main thread runs its timeout
check exactly once and its merge exactly once and in that order, and the
main thread passes `join` (reaching `check`) only after the timer fired or
the query finished. -/
def validSchedule (sched : List ChunkAct) : Bool :=
  decide (sched.count ChunkAct.fire ≤ 1) &&
  decide (sched.count ChunkAct.assign ≤ 1) &&
  decide (sched.count ChunkAct.check = 1) &&
  decide (sched.count ChunkAct.merge = 1) &&
  decide (idxOfAct ChunkAct.check sched < idxOfAct ChunkAct.merge sched) &&
  ((sched.take (idxOfAct ChunkAct.check sched)).contains ChunkAct.fire ||
   (sched.take (idxOfAct ChunkAct.check sched)).contains ChunkAct.assign)

/-- The result a late query eventually returns: order `S-101` found and
interfaced. -/
def lateResult : List (String × IEntry) :=
  [("S-101", IEntry.found "Interface" (some "SO-1") (some "done") none)]

/-- C3: a legal interleaving in which the watchdog fires before the query
completes (`fire` precedes `assign`), the main thread then resets the
shared variable (`check`), the late query result lands in the shared
variable afterwards, and the main thread's merge picks it up: the
timed-out chunk's late result ends up in the merged interface results and
decides order `S-101`'s status, contradicting the required discard. -/
theorem timed_out_chunk_merges_late_result :
    validSchedule [ChunkAct.fire, ChunkAct.check, ChunkAct.assign,
      ChunkAct.merge] = true ∧
    idxOfAct ChunkAct.fire [ChunkAct.fire, ChunkAct.check, ChunkAct.assign,
      ChunkAct.merge] <
      idxOfAct ChunkAct.assign [ChunkAct.fire, ChunkAct.check,
        ChunkAct.assign, ChunkAct.merge] ∧
    (chunkRun lateResult [ChunkAct.fire, ChunkAct.check, ChunkAct.assign,
      ChunkAct.merge]).flag = true ∧
    (chunkRun lateResult [ChunkAct.fire, ChunkAct.check, ChunkAct.assign,
      ChunkAct.merge]).merged = lateResult ∧
    (chunkRun lateResult [ChunkAct.fire, ChunkAct.check, ChunkAct.assign,
      ChunkAct.merge]).merged.lookup "S-101" ≠ none := by decide

/-! ## C7 — failure handling of the background pipeline
(main.py lines 898-1417: the `try`/`except`/`finally` skeleton) -/

/-- Where an exception can be raised inside the `try` block: while opening
the session (`db = SessionLocal()`), while fetching the task row
(`task = db.query(...).first()`), or anywhere in the later pipeline
stages. -/
inductive PipeStage where
  | openDb
  | fetchTask
  | work
deriving Repr, DecidableEq

/-- The persisted upload-task row. -/
structure TaskState where
  status : String
  errorMessage : Option String
deriving Repr, DecidableEq

/-- Observable state of one skeleton run. -/
structure PState where
  db : Option Bool
  taskBound : Bool
  taskFound : Bool
  stored : Option TaskState
  closed : Bool
deriving Repr, DecidableEq

/-- The `try` block: open the session, fetch the task row (binding the
local `task`), set it to `processing` when found, run the remaining
pipeline.  `raiseAt` injects an exception at a stage, returning the
message together with the state reached so far. -/
def tryBody (taskExists : Bool) (raiseAt : Option (PipeStage × String))
    (s0 : PState) : Except (String × PState) PState :=
  match raiseAt with
  | some (.openDb, m) => .error (m, s0)
  | _ =>
  let s1 := { s0 with db := some true }
  match raiseAt with
  | some (.fetchTask, m) => .error (m, s1)
  | _ =>
  let s2 := { s1 with taskBound := true, taskFound := taskExists }
  let s3 := if taskExists then
      { s2 with stored := some { status := "processing", errorMessage := none } }
    else s2
  match raiseAt with
  | some (.work, m) => .error (m, s3)
  | _ =>
  .ok (if taskExists then
      { s3 with stored := some { status := "completed", errorMessage := none } }
    else s3)

/-- Embedding of the `process_upload_background` frame (main.py lines 898-1417):
`db = None`; run the `try` body; in `except`, set the task to `failed`
with the message only when `'task' in locals() and task`; in `finally`,
close the session when it is not `None`. -/
def processSkeleton (taskExists : Bool)
    (raiseAt : Option (PipeStage × String)) : PState :=
  let s0 : PState :=
    { db := none, taskBound := false, taskFound := false,
      stored := if taskExists then
          some { status := "pending", errorMessage := none }
        else none,
      closed := false }
  let afterTry :=
    match tryBody taskExists raiseAt s0 with
    | .ok s => s
    | .error em =>
      if em.2.taskBound ∧ em.2.taskFound then
        { em.2 with
          stored := some
            { status := "failed",
              errorMessage := some em.1 } }
      else em.2
  if afterTry.db.isSome then { afterTry with closed := true } else afterTry

/-- C7 counterexample: an exception raised while fetching the task row
(`db.query(...).first()` fails, e.g. the database is down).  The `except`
block's `'task' in locals()` guard skips the failure write: the task stays
`pending` forever instead of transitioning to Failed — though the session
is closed. -/
theorem exception_before_fetch_leaves_task_pending :
    (processSkeleton true (some (PipeStage.fetchTask, "connection refused"))).stored =
      some { status := "pending", errorMessage := none } ∧
    (processSkeleton true (some (PipeStage.fetchTask, "connection refused"))).stored ≠
      some
        { status := "failed",
          errorMessage := some "connection refused" } ∧
    (processSkeleton true (some (PipeStage.fetchTask, "connection refused"))).closed =
      true := by decide

/-- C7 (amended): an unhandled exception raised after the task row has
been fetched (and found) sets the task to `failed` with the exception's
message; an exception raised while opening the session or fetching the
task row leaves the task status untouched; and on every path the session
is closed whenever it was opened. -/
theorem pipeline_failure_sets_failed_after_fetch (taskExists : Bool)
    (msg : String) :
    (taskExists = true →
      (processSkeleton taskExists (some (PipeStage.work, msg))).stored =
        some { status := "failed", errorMessage := some msg }) ∧
    ((processSkeleton taskExists (some (PipeStage.openDb, msg))).stored =
      (if taskExists then
        some { status := "pending", errorMessage := none } else none)) ∧
    ((processSkeleton taskExists (some (PipeStage.fetchTask, msg))).stored =
      (if taskExists then
        some { status := "pending", errorMessage := none } else none)) ∧
    (∀ raiseAt, (processSkeleton taskExists raiseAt).db.isSome →
      (processSkeleton taskExists raiseAt).closed = true) := by
  refine ⟨?_, ?_, ?_, ?_⟩
  · intro hte
    subst hte
    rfl
  · cases taskExists <;> rfl
  · cases taskExists <;> rfl
  · intro raiseAt
    rcases raiseAt with _ | ⟨stage, m⟩
    · cases taskExists <;> (intro _; rfl)
    · cases stage <;> cases taskExists <;>
        simp [processSkeleton, tryBody]

/-- Witness for C7 (amended) at a concrete input. -/
theorem pipeline_failure_sets_failed_after_fetch_witness :
    ((true : Bool) = true →
      (processSkeleton true (some (PipeStage.work, "boom"))).stored =
        some { status := "failed", errorMessage := some "boom" }) ∧
    ((processSkeleton true (some (PipeStage.openDb, "boom"))).stored =
      (if (true : Bool) then
        some { status := "pending", errorMessage := none } else none)) ∧
    ((processSkeleton true (some (PipeStage.fetchTask, "boom"))).stored =
      (if (true : Bool) then
        some { status := "pending", errorMessage := none } else none)) ∧
    (∀ raiseAt, (processSkeleton true raiseAt).db.isSome →
      (processSkeleton true raiseAt).closed = true) :=
  pipeline_failure_sets_failed_after_fetch true "boom"

/-! ## C10 — upload submission validation (`validate_upload_request` and
`upload_file_background`, main.py lines 1546-1594 and 3720-3789) -/

/-- The uploaded file handle as the endpoint sees it. -/
structure UploadFile where
  filename : String
  size : Nat
  contentType : String
deriving Repr, DecidableEq

/-- The constant `MAX_FILE_SIZE = 50 * 1024 * 1024` (main.py line 209). -/
def maxFileSize : Nat := 50 * 1024 * 1024

/-- The set `ALLOWED_EXTENSIONS` (main.py line 210). -/
def allowedExtensions : List String := [".xlsx", ".csv"]

/-- The set `ALLOWED_MIME_TYPES` (main.py lines 211-215). -/
def allowedMimeTypes : List String :=
  ["application/vnd.openxmlformats-officedocument.spreadsheetml.sheet",
    "text/csv", "application/csv"]

/-- Embedding of `os.path.splitext(filename)[1]`: the extension from the last dot. -/
def extOf (fn : String) : String :=
  if '.' ∈ fn.toList then
    String.mk ('.' :: (fn.toList.reverse.takeWhile (fun c => c ≠ '.')).reverse)
  else ""

/-- Scan for the `'..'` substring. -/
def hasDoubleDot : List Char → Bool
  | '.' :: '.' :: _ => true
  | _ :: rest => hasDoubleDot rest
  | [] => false

/-- The malicious-pattern check (main.py line 1566). -/
def hasBadChars (fn : String) : Bool :=
  hasDoubleDot fn.toList ||
  fn.toList.any (fun c => c ∈ ['/', '\\', '<', '>', ':', '"', '|', '?', '*'])

/-- Embedding of `validate_upload_request` (main.py lines 1546-1594): size, filename
presence, extension, MIME type, malicious characters, filename parse, and
— before any task is created — the brand/marketplace shop-key lookup,
whose absence is a validation error. -/
def validateUploadRequest (shopLookup : String → String → Option String)
    (file : UploadFile) : Except String (FilenameInfo × String) :=
  if file.size > maxFileSize then
    .error "File too large. Maximum size is 50MB"
  else if file.filename = "" then
    .error "No filename provided"
  else if lowerStr (extOf file.filename) ∉ allowedExtensions then
    .error "Invalid file type. Allowed types: .xlsx, .csv"
  else if file.contentType ∉ allowedMimeTypes then
    .error "Invalid file MIME type"
  else if hasBadChars file.filename then
    .error "Invalid characters in filename"
  else
    match parseFilename file.filename with
    | .noMatch => .error "Invalid filename format"
    | .invalid msg => .error msg
    | .ok info =>
      match shopLookup info.brand info.sales_channel with
      | some sid => .ok (info, sid)
      | none => .error ("No shop_id found for " ++ info.brand ++ " in " ++
          info.sales_channel ++
          ". Please add shop_id configuration before uploading.")

/-- A row of the `upload_tasks` table as created at submission. -/
structure TaskRow where
  task_id : String
  status : String
  brand : String
  batch : String
deriving Repr, DecidableEq

/-- Observable result of the `upload-background` endpoint. -/
structure EndpointResult where
  response : Except String String
  tasks : List TaskRow
  backgroundScheduled : Bool
deriving Repr

/-- Embedding of `upload_file_background` (main.py lines 3720-3789): validate first; a
validation `HTTPException` is caught by the endpoint's blanket handler,
rolled back, and re-raised as `Background upload failed: 400: <detail>` —
before any task row is created and before the background task is
scheduled.  On success the `pending` task row is committed and the
background processing scheduled. -/
def uploadFileBackground (shopLookup : String → String → Option String)
    (file : UploadFile) (taskId : String) (tasks : List TaskRow) :
    EndpointResult :=
  match validateUploadRequest shopLookup file with
  | .error msg =>
    { response := .error ("Background upload failed: 400: " ++ msg),
      tasks := tasks, backgroundScheduled := false }
  | .ok infosid =>
    { response := .ok "Upload started in background",
      tasks := tasks ++
        [{ task_id := taskId, status := "pending",
           brand := infosid.1.brand, batch := infosid.1.batch }],
      backgroundScheduled := true }

/-- C10: a submission whose (brand, marketplace) pair has no shop key is
rejected by the endpoint with the shop-key validation error, before any
upload-task record is created and before any background processing is
scheduled — even though the handoff writer itself treats a missing shop
key as a warning only (generation still succeeds, with the warning
recorded). -/
theorem missing_shop_key_rejected_at_submission
    (shopLookup : String → String → Option String) (file : UploadFile)
    (taskId : String) (tasks : List TaskRow) (info : FilenameInfo)
    (hsize : ¬(file.size > maxFileSize)) (hfn : ¬(file.filename = ""))
    (hext : lowerStr (extOf file.filename) ∈ allowedExtensions)
    (hmime : file.contentType ∈ allowedMimeTypes)
    (hchars : hasBadChars file.filename = false)
    (hparse : parseFilename file.filename = .ok info)
    (hshop : shopLookup info.brand info.sales_channel = none) :
    (uploadFileBackground shopLookup file taskId tasks).response =
      .error ("Background upload failed: 400: " ++
        ("No shop_id found for " ++ info.brand ++ " in " ++
          info.sales_channel ++
          ". Please add shop_id configuration before uploading.")) ∧
    (uploadFileBackground shopLookup file taskId tasks).tasks = tasks ∧
    (uploadFileBackground shopLookup file taskId tasks).backgroundScheduled =
      false ∧
    (∀ (fs : FS) (orders : List OrderRec) (channel path : String),
      orders.filter (fun o => o.InterfaceStatus = "Not Yet Interface") ≠ [] →
      lowerStr channel ∈ knownOrderlistChannels →
      (generateOrderlist fs orders channel none path).success = true ∧
      (generateOrderlist fs orders channel none path).shopIdWarning = true) := by
  have hval : validateUploadRequest shopLookup file =
      .error ("No shop_id found for " ++ info.brand ++ " in " ++
        info.sales_channel ++
        ". Please add shop_id configuration before uploading.") := by
    unfold validateUploadRequest
    rw [if_neg hsize, if_neg hfn, if_neg (fun h => h hext),
      if_neg (fun h => h hmime),
      if_neg (by rw [hchars]; exact Bool.false_ne_true)]
    simp only [hparse, hshop]
  refine ⟨?_, ?_, ?_, ?_⟩
  · simp only [uploadFileBackground, hval]
  · simp only [uploadFileBackground, hval]
  · simp only [uploadFileBackground, hval]
  · intro fs orders channel path hne hknown
    constructor
    · unfold generateOrderlist
      rw [if_neg hne, if_neg (by simpa using hknown)]
    · unfold generateOrderlist
      rw [if_neg hne, if_neg (by simpa using hknown)]
      simp

/-- A concrete well-formed upload file. -/
def sampleUploadFile : UploadFile :=
  { filename := "AURA-SHOPEE-5-1.xlsx", size := 10,
    contentType := "text/csv" }

/-- The parse of `sampleUploadFile`'s filename. -/
def sampleFileInfo : FilenameInfo :=
  { brand := "AURA", sales_channel := "SHOPEE", date := "5", batch := "1",
    extension := "xlsx" }

/-- Witness for C10 at a concrete input: a well-formed Shopee upload with
an empty brand-shops configuration. -/
theorem missing_shop_key_rejected_at_submission_witness :
    (¬(sampleUploadFile.size > maxFileSize)) ∧
    ((uploadFileBackground (fun _ _ => none) sampleUploadFile "t1"
        []).response =
      .error ("Background upload failed: 400: " ++
        ("No shop_id found for " ++ sampleFileInfo.brand ++ " in " ++
          sampleFileInfo.sales_channel ++
          ". Please add shop_id configuration before uploading.")) ∧
    (uploadFileBackground (fun _ _ => none) sampleUploadFile "t1"
        []).tasks = [] ∧
    (uploadFileBackground (fun _ _ => none) sampleUploadFile "t1"
        []).backgroundScheduled = false ∧
    (∀ (fs : FS) (orders : List OrderRec) (channel path : String),
      orders.filter (fun o => o.InterfaceStatus = "Not Yet Interface") ≠ [] →
      lowerStr channel ∈ knownOrderlistChannels →
      (generateOrderlist fs orders channel none path).success = true ∧
      (generateOrderlist fs orders channel none path).shopIdWarning =
        true)) :=
  ⟨by decide,
    missing_shop_key_rejected_at_submission (fun _ _ => none)
      sampleUploadFile "t1" [] sampleFileInfo
      (by decide) (by decide) (by decide) (by decide) (by decide)
      (by decide) rfl⟩

end SweepingApp
